import Mathlib

/-!
# Calculator: a verification development of `src/main.cpp`

`src/main.cpp` holds two front ends of a four-function calculator, chosen at
compile time: a Qt widget (`CalculatorWidget`) and a console loop (`main`).

The embedding is shallow.  The C++ `double` operations and the conversions the
program takes from Qt and from the C++ standard library are the fields of a
structure `Lib`, so every general theorem holds for whatever those functions
compute; `Binary64` with `reference` is one concrete instance, used to evaluate
the program on concrete inputs.  The widget is a record of the texts it holds;
`std::cin` is the list of characters still to be read together with its
`failbit` and `eofbit`; `std::cout` is the list of items written to it.
-/

namespace Calculator

/-! ## The library interface -/

/-- The operations on `double` and the library conversions that `main.cpp`
calls.  `D` is the type of `double` values. -/
structure Lib (D : Type) where
  /-- The literal `0.0`. -/
  zero : D
  /-- The operator `+` on `double`. -/
  add : D → D → D
  /-- The operator `-` on `double`. -/
  sub : D → D → D
  /-- The operator `*` on `double`. -/
  mul : D → D → D
  /-- The operator `/` on `double`. -/
  div : D → D → D
  /-- The comparison `==` on `double`. -/
  eq : D → D → Bool
  /-- The call `QString::toDouble(&ok)`: `some v` when `ok` is set to true. -/
  toDouble : String → Option D
  /-- The text that `QString::arg(double)` substitutes for a value. -/
  argDouble : D → String
  /-- The call `std::strtod(s, &endPtr)` on a C string: the value and the
  offset of `endPtr` from `s`. -/
  strtod : List Char → D × Nat
  /-- The extraction `num_get::get` behind `std::cin >> value`, started at the
  first character that is not white space: the value when the conversion
  succeeds, and the characters left in the stream. -/
  numGet : List Char → Option D × List Char
  /-- The text that `std::cout << value` writes for a value. -/
  putDouble : D → String

/-! ## `QString::arg` -/

/-- A piece of a `QString` as `arg` reads it: a character, or a place marker
`%n` or `%Ln` (`n` of one or two digits) with the text that spells it. -/
inductive Piece where
  | chr (c : Char)
  | marker (n : Nat) (raw : List Char)
  deriving DecidableEq, Repr

/-- The value of a decimal digit character. -/
def digitValue (c : Char) : Nat := c.toNat - '0'.toNat

/-- Where the scan of `QString::arg` stands: in plain text, after a `%`,
after `%L`, or after the first digit of a marker (with the text read for the
marker and the digit's value). -/
inductive Scan where
  | text
  | percent
  | percentL
  | digit (raw : List Char) (d : Nat)
  deriving DecidableEq, Repr

/-- Splits a text into characters and place markers, left to right, the way
`QString::arg` looks for its escapes: after a `%` (and an optional `L`) that no
digit follows, the scan resumes at the character that follows. -/
def piecesFrom : Scan → List Char → List Piece
  | Scan.text, [] => []
  | Scan.text, c :: cs =>
    if c = '%' then piecesFrom Scan.percent cs else Piece.chr c :: piecesFrom Scan.text cs
  | Scan.percent, [] => [Piece.chr '%']
  | Scan.percent, c :: cs =>
    if c.isDigit then piecesFrom (Scan.digit ['%', c] (digitValue c)) cs
    else if c = 'L' then piecesFrom Scan.percentL cs
    else if c = '%' then Piece.chr '%' :: piecesFrom Scan.percent cs
    else Piece.chr '%' :: Piece.chr c :: piecesFrom Scan.text cs
  | Scan.percentL, [] => [Piece.chr '%', Piece.chr 'L']
  | Scan.percentL, c :: cs =>
    if c.isDigit then piecesFrom (Scan.digit ['%', 'L', c] (digitValue c)) cs
    else if c = '%' then Piece.chr '%' :: Piece.chr 'L' :: piecesFrom Scan.percent cs
    else Piece.chr '%' :: Piece.chr 'L' :: Piece.chr c :: piecesFrom Scan.text cs
  | Scan.digit raw d, [] => [Piece.marker d raw]
  | Scan.digit raw d, c :: cs =>
    if c.isDigit then Piece.marker (10 * d + digitValue c) (raw ++ [c]) :: piecesFrom Scan.text cs
    else if c = '%' then Piece.marker d raw :: piecesFrom Scan.percent cs
    else Piece.marker d raw :: Piece.chr c :: piecesFrom Scan.text cs

/-- The pieces of a whole text. -/
def pieces (s : List Char) : List Piece := piecesFrom Scan.text s

/-- The lowest place-marker number among the pieces, if there is a marker. -/
def lowestMarker : List Piece → Option Nat
  | [] => none
  | Piece.chr _ :: ps => lowestMarker ps
  | Piece.marker n _ :: ps =>
    match lowestMarker ps with
    | none => some n
    | some m => some (min n m)

/-- Writes the pieces back as text, with `a` in place of each marker `n`. -/
def fill (n : Nat) (a : List Char) : List Piece → List Char
  | [] => []
  | Piece.chr c :: ps => c :: fill n a ps
  | Piece.marker k raw :: ps => (if k = n then a else raw) ++ fill n a ps

/-- The call `s.arg(a)` of `QString`: every occurrence of the lowest-numbered
place marker of `s` is replaced by `a`; a text without a marker is returned
as it is. -/
def arg (s a : String) : String :=
  match lowestMarker (pieces s.data) with
  | none => s
  | some n => String.mk (fill n a.data (pieces s.data))

/-- The call `tr(text)`: the program installs no translator, so the source text
is returned. -/
def tr (s : String) : String := s

/-! ## The widget -/

/-- The state of a `CalculatorWidget` that `calculate` reads or writes. -/
structure CalculatorWidget where
  /-- The text of the line edit `lhsInput`. -/
  lhsInput : String
  /-- The text of the line edit `rhsInput`. -/
  rhsInput : String
  /-- The current text of the combo box `operatorSelector`. -/
  operatorSelector : String
  /-- The text of `resultLabel`. -/
  resultLabel : String
  /-- The text of `errorLabel`. -/
  errorLabel : String
  /-- Whether `errorLabel` is visible. -/
  errorVisible : Bool
  /-- The lines of `logView`. -/
  logView : List String
  /-- The lines written through `qDebug()`, each as the items streamed. -/
  debugOutput : List (List String)
  deriving DecidableEq, Repr

/-- The items the constructor gives to `operatorSelector`. -/
def operatorItems : List String := ["+", "-", "×", "÷"]

/-- The method `appendLog`. -/
def appendLog (w : CalculatorWidget) (message : String) : CalculatorWidget :=
  { w with
    debugOutput := w.debugOutput ++ [["Calculator log:", message]]
    logView := w.logView ++ [message] }

/-- The method `showError`. -/
def showError (w : CalculatorWidget) (message : String) : CalculatorWidget :=
  let w1 := { w with errorLabel := message }
  let w2 := { w1 with errorVisible := true }
  let w3 := { w2 with resultLabel := tr "Result: --" }
  appendLog w3 (arg (tr "错误: %1") message)

/-- The operator chain of `calculate` (the `if`/`else if` over `op`): the
value left in `result`, or `none` where the `÷` branch finds the divisor equal
to `0.0` and `calculate` returns early.  A text that matches no branch leaves
`result` at its initial `0.0`. -/
def dispatch {D : Type} (L : Lib D) (op : String) (lhsValue rhsValue : D) : Option D :=
  if op = "+" then some (L.add lhsValue rhsValue)
  else if op = "-" then some (L.sub lhsValue rhsValue)
  else if op = "×" then some (L.mul lhsValue rhsValue)
  else if op = "÷" then
    if L.eq rhsValue L.zero then none else some (L.div lhsValue rhsValue)
  else some L.zero

/-- The method `calculate`.  `now` is the text of
`QDateTime::currentDateTime().toString(Qt::ISODate)` at the call. -/
def calculate {D : Type} (L : Lib D) (now : String) (w : CalculatorWidget) :
    CalculatorWidget :=
  let w0 := { w with errorVisible := false }
  match L.toDouble w0.lhsInput, L.toDouble w0.rhsInput with
  | some lhsValue, some rhsValue =>
    let op := w0.operatorSelector
    match dispatch L op lhsValue rhsValue with
    | none =>
      appendLog (showError w0 (tr "除数不能为0。"))
        (arg (tr "调试: 尝试除以零，左值：%1") (L.argDouble lhsValue))
    | some result =>
      let w1 := { w0 with resultLabel := arg (tr "Result: %1") (L.argDouble result) }
      let logMessage :=
        arg (arg (arg (arg (arg (tr "%1 | %2 %3 %4 = %5") now) (L.argDouble lhsValue)) op)
          (L.argDouble rhsValue)) (L.argDouble result)
      appendLog w1 logMessage
  | _, _ =>
    appendLog (showError w0 (tr "请输入有效的数字。"))
      (arg (arg (tr "调试: 输入无法解析 -> 左值：%1，右值：%2") w0.lhsInput) w0.rhsInput)

/-- The widget as the constructor `CalculatorWidget(QWidget *)` leaves it:
empty line edits, the first item of the selector current, the result label
`Result: --`, an empty hidden error label and an empty log. -/
def CalculatorWidget.constructed : CalculatorWidget :=
  { lhsInput := "", rhsInput := "", operatorSelector := "+", resultLabel := tr "Result: --",
    errorLabel := "", errorVisible := false, logView := [], debugOutput := [] }

/-- The states of the widget that the program reaches: the constructed one,
and from a reached state the one after a text is put in a line edit (any
text, for what the validators let through), after an item of the selector is
chosen (the combo box is not editable and holds the items of the constructor
only), after the button connected to `calculate` is clicked, and after the
button connected to `QPlainTextEdit::clear` is clicked. -/
inductive Reachable {D : Type} (L : Lib D) : CalculatorWidget → Prop where
  | constructed : Reachable L CalculatorWidget.constructed
  | typedLeft (w : CalculatorWidget) (text : String) :
      Reachable L w → Reachable L { w with lhsInput := text }
  | typedRight (w : CalculatorWidget) (text : String) :
      Reachable L w → Reachable L { w with rhsInput := text }
  | selected (w : CalculatorWidget) (item : String) :
      Reachable L w → item ∈ operatorItems → Reachable L { w with operatorSelector := item }
  | computed (w : CalculatorWidget) (now : String) :
      Reachable L w → Reachable L (calculate L now w)
  | clearedLog (w : CalculatorWidget) :
      Reachable L w → Reachable L { w with logView := [] }

/-! ## The console: `std::cin` and `std::cout` -/

/-- The stream `std::cin`: the characters not yet read, up to the end of the
input, and the state bits the program can meet.  A `char` of the input is the
`Char` with the same code, so a character outside ASCII stands in the buffer
as the bytes of its encoding. -/
structure Cin where
  /-- The characters still to be read. -/
  buffer : List Char
  /-- The bit `failbit`. -/
  failbit : Bool
  /-- The bit `eofbit`. -/
  eofbit : Bool
  deriving DecidableEq, Repr

/-- The test `good()`. -/
def Cin.good (s : Cin) : Bool := !s.failbit && !s.eofbit

/-- The function `isspace` in the "C" locale. -/
def isspace (c : Char) : Bool :=
  c = ' ' || c = '\t' || c = '\n' || c = '\x0b' || c = '\x0c' || c = '\r'

/-- The outcome of the `sentry` of a formatted extraction: the first character
that is not white space with what follows it, or the stream left in failure. -/
inductive Sentry where
  | ready (c : Char) (cs : List Char)
  | failed (s : Cin)
  deriving DecidableEq, Repr

/-- The `sentry` of `operator>>` with `skipws` set: a stream that is not good
gets `failbit`; otherwise white space is skipped, and reaching the end of the
input sets `failbit` and `eofbit`. -/
def sentry (s : Cin) : Sentry :=
  if s.good then
    match s.buffer.dropWhile isspace with
    | [] => Sentry.failed { buffer := [], failbit := true, eofbit := true }
    | c :: cs => Sentry.ready c cs
  else Sentry.failed { s with failbit := true }

/-- The extraction `std::cin >> str` of a `std::string`: the characters up to
the next white space or the end of the input; `eofbit` when the end is met. -/
def extractString (s : Cin) : Option String × Cin :=
  match sentry s with
  | Sentry.failed s1 => (none, s1)
  | Sentry.ready c cs =>
    let rest := cs.dropWhile (fun x => !isspace x)
    (some (String.mk (c :: cs.takeWhile (fun x => !isspace x))),
      { buffer := rest, failbit := false, eofbit := rest.isEmpty })

/-- The extraction `std::cin >> op` of a `char`. -/
def extractChar (s : Cin) : Option Char × Cin :=
  match sentry s with
  | Sentry.failed s1 => (none, s1)
  | Sentry.ready c cs => (some c, { buffer := cs, failbit := false, eofbit := false })

/-- The extraction `std::cin >> value` of a `double`: `failbit` when the
conversion fails, `eofbit` when the end of the input is met. -/
def extractDouble {D : Type} (L : Lib D) (s : Cin) : Option D × Cin :=
  match sentry s with
  | Sentry.failed s1 => (none, s1)
  | Sentry.ready c cs =>
    match L.numGet (c :: cs) with
    | (some v, rest) => (some v, { buffer := rest, failbit := false, eofbit := rest.isEmpty })
    | (none, rest) => (none, { buffer := rest, failbit := true, eofbit := rest.isEmpty })

/-- The call `std::cin.clear()`. -/
def Cin.clear (s : Cin) : Cin := { s with failbit := false, eofbit := false }

/-- The call `std::cin.ignore(numeric_limits<streamsize>::max(), '\n')`: the
characters up to and with the next line feed are dropped; `eofbit` when the
input ends first. -/
def Cin.ignoreLine (s : Cin) : Cin :=
  if s.good then
    match s.buffer.dropWhile (fun x => x != '\n') with
    | [] => { buffer := [], failbit := false, eofbit := true }
    | _ :: rest => { buffer := rest, failbit := false, eofbit := false }
  else { s with failbit := true }

/-- The console: `std::cin` and the items written to `std::cout`, in order. -/
structure Console where
  /-- The input stream. -/
  cin : Cin
  /-- The items streamed to `std::cout`. -/
  cout : List String
  deriving DecidableEq, Repr

/-- The statement `std::cout << item`. -/
def Console.put (k : Console) (item : String) : Console :=
  { k with cout := k.cout ++ [item] }

/-- The function `readNumber`. -/
def readNumber {D : Type} (L : Lib D) (prompt : String) (k : Console) :
    Option D × Console :=
  let k1 := k.put prompt
  match extractDouble L k1.cin with
  | (none, s) => (none, { k1 with cin := s })
  | (some value, s) => (some value, { k1 with cin := s })

/-- The function `readOperator`. -/
def readOperator (k : Console) : Option Char × Console :=
  let k1 := k.put "请输入运算符 (+, -, *, /): "
  match extractChar k1.cin with
  | (none, s) => (none, { k1 with cin := s })
  | (some op, s) =>
    let k2 := { k1 with cin := s }
    if op = '+' ∨ op = '-' ∨ op = '*' ∨ op = '/' then (some op, k2)
    else (none, k2.put "无效的运算符。\n")

/-- The function `clearInput`. -/
def clearInput (k : Console) : Console :=
  { k with cin := k.cin.clear.ignoreLine }

/-- The view `c_str()` of a `std::string`: a C string ends at the first
character `NUL`. -/
def cStr (s : String) : List Char := s.data.takeWhile (fun x => x != '\x00')

/-- What the `switch` of `main` leaves: a value in `result`, the division by
zero of the `'/'` case, or the `default` case. -/
inductive Switched (D : Type) where
  | result (v : D)
  | divisionByZero
  | unknown
  deriving DecidableEq, Repr

/-- The `switch (*op)` of `main`. -/
def switchOp {D : Type} (L : Lib D) (op : Char) (lhs rhs : D) : Switched D :=
  if op = '+' then Switched.result (L.add lhs rhs)
  else if op = '-' then Switched.result (L.sub lhs rhs)
  else if op = '*' then Switched.result (L.mul lhs rhs)
  else if op = '/' then
    if L.eq rhs L.zero then Switched.divisionByZero else Switched.result (L.div lhs rhs)
  else Switched.unknown

/-- How an iteration of the loop of `main` ends: with `continue` (or at the end
of the body), or by leaving `main` with a status (`break` leads to the
`return EXIT_SUCCESS` after the loop). -/
inductive Control where
  | next
  | exit (status : Nat)
  deriving DecidableEq, Repr

/-- The status `EXIT_SUCCESS`. -/
def EXIT_SUCCESS : Nat := 0

/-- The status `EXIT_FAILURE`. -/
def EXIT_FAILURE : Nat := 1

/-- One iteration of the `while (true)` loop of `main`. -/
def loopBody {D : Type} (L : Lib D) (k : Console) : Control × Console :=
  let k1 := k.put "输入表达式: "
  match extractString k1.cin with
  | (none, s) => (Control.exit EXIT_FAILURE, ({ k1 with cin := s }).put "输入错误，程序退出。\n")
  | (some firstToken, s) =>
    let k2 := { k1 with cin := s }
    if firstToken = "q" ∨ firstToken = "Q" then (Control.exit EXIT_SUCCESS, k2.put "再见！\n")
    else
      let parsed := L.strtod (cStr firstToken)
      let lhs := parsed.1
      let endPtr := parsed.2
      if endPtr = 0 ∨ ((cStr firstToken).drop endPtr).headD '\x00' ≠ '\x00' then
        (Control.next, clearInput (k2.put "请输入有效的数字。\n"))
      else
        match readOperator k2 with
        | (none, k3) => (Control.next, clearInput k3)
        | (some op, k3) =>
          match readNumber L "请输入第二个数字: " k3 with
          | (none, k4) => (Control.next, clearInput (k4.put "请输入有效的数字。\n"))
          | (some rhs, k4) =>
            match switchOp L op lhs rhs with
            | Switched.result result =>
              (Control.next, ((k4.put "结果: ").put (L.putDouble result)).put "\n")
            | Switched.divisionByZero => (Control.next, k4.put "除数不能为0。\n")
            | Switched.unknown => (Control.next, k4.put "未知错误。\n")

/-- The loop of `main`, run for at most `fuel` iterations: the exit status and
the console at the end, or `none` when the iterations are used up. -/
def mainLoop {D : Type} (L : Lib D) : Nat → Console → Option (Nat × Console)
  | 0, _ => none
  | fuel + 1, k =>
    match loopBody L k with
    | (Control.exit status, k1) => some (status, k1)
    | (Control.next, k1) => mainLoop L fuel k1

/-- The console at the start of the program, with `input` on standard input. -/
def Console.start (input : String) : Console :=
  { cin := { buffer := input.data, failbit := false, eofbit := false }, cout := [] }

/-- The function `main` of the console program on the given standard input. -/
def main {D : Type} (L : Lib D) (fuel : Nat) (input : String) : Option (Nat × Console) :=
  mainLoop L fuel ((Console.start input).put "简单计算器 (输入 q 退出)\n")

/-! ## A concrete instance: IEEE 754 binary64 and decimal conversions -/

/-- A value of the IEEE 754 format binary64: a finite value
`(-1)^negative * mantissa * 2^exponent`, an infinity, or a NaN.  Finite values
are kept in the form `mantissa < 2^53`, `-1074 ≤ exponent ≤ 971`, with
`2^52 ≤ mantissa` unless `exponent = -1074`. -/
inductive Binary64 where
  | finite (negative : Bool) (mantissa : Nat) (exponent : Int)
  | infinite (negative : Bool)
  | nan
  deriving DecidableEq, Repr

namespace Binary64

/-- The number of binary digits of `n`, counted in at most `fuel` steps. -/
def bitsWithin : Nat → Nat → Nat
  | 0, _ => 0
  | fuel + 1, n => if n = 0 then 0 else bitsWithin fuel (n / 2) + 1

/-- The number of binary digits of `n`. -/
def bitLength (n : Nat) : Nat := bitsWithin n n

/-- The zero of the given sign. -/
def signedZero (negative : Bool) : Binary64 := finite negative 0 (-1074)

/-- The binary64 value nearest to `(-1)^negative * n / d` (`d` not zero), ties
to the even mantissa; an infinity when the rounded value is out of range. -/
def round (negative : Bool) (n d : Nat) : Binary64 :=
  if n = 0 then signedZero negative
  else
    let e0 : Int := (bitLength n : Int) - (bitLength d : Int)
    let below : Bool := if e0 < 0 then n * 2 ^ (-e0).toNat < d else n < d * 2 ^ e0.toNat
    let e : Int := if below then e0 - 1 else e0
    let q : Int := max (e - 52) (-1074)
    let num : Nat := if q < 0 then n * 2 ^ (-q).toNat else n
    let den : Nat := if q < 0 then d else d * 2 ^ q.toNat
    let m0 : Nat := num / den
    let r : Nat := num % den
    let m : Nat := if den < 2 * r ∨ (2 * r = den ∧ m0 % 2 = 1) then m0 + 1 else m0
    let m1 : Nat := if m = 2 ^ 53 then 2 ^ 52 else m
    let q1 : Int := if m = 2 ^ 53 then q + 1 else q
    if 971 < q1 then infinite negative else finite negative m1 q1

/-- The binary64 value nearest to `(-1)^negative * n * 2^e`. -/
def roundScaled (negative : Bool) (n : Nat) (e : Int) : Binary64 :=
  if e < 0 then round negative n (2 ^ (-e).toNat) else round negative (n * 2 ^ e.toNat) 1

/-- The negation of a value. -/
def neg : Binary64 → Binary64
  | finite s m e => finite (!s) m e
  | infinite s => infinite (!s)
  | nan => nan

/-- The sum of two values. -/
def add : Binary64 → Binary64 → Binary64
  | nan, _ => nan
  | _, nan => nan
  | infinite s, infinite t => if s = t then infinite s else nan
  | infinite s, finite _ _ _ => infinite s
  | finite _ _ _, infinite t => infinite t
  | finite s m e, finite t k f =>
    let g : Int := min e f
    let a : Int := (if s then -1 else 1) * ((m * 2 ^ (e - g).toNat : Nat) : Int)
    let b : Int := (if t then -1 else 1) * ((k * 2 ^ (f - g).toNat : Nat) : Int)
    let c : Int := a + b
    if c = 0 then signedZero (s && t)
    else roundScaled (decide (c < 0)) c.natAbs g

/-- The difference of two values. -/
def sub (x y : Binary64) : Binary64 := add x (neg y)

/-- The product of two values. -/
def mul : Binary64 → Binary64 → Binary64
  | nan, _ => nan
  | _, nan => nan
  | infinite s, infinite t => infinite (xor s t)
  | infinite s, finite t k _ => if k = 0 then nan else infinite (xor s t)
  | finite s m _, infinite t => if m = 0 then nan else infinite (xor s t)
  | finite s m e, finite t k f => roundScaled (xor s t) (m * k) (e + f)

/-- The quotient of two values. -/
def div : Binary64 → Binary64 → Binary64
  | nan, _ => nan
  | _, nan => nan
  | infinite _, infinite _ => nan
  | infinite s, finite t _ _ => infinite (xor s t)
  | finite s _ _, infinite t => signedZero (xor s t)
  | finite s m e, finite t k f =>
    if k = 0 then
      if m = 0 then nan else infinite (xor s t)
    else if e < f then round (xor s t) m (k * 2 ^ (f - e).toNat)
    else round (xor s t) (m * 2 ^ (e - f).toNat) k

/-- The comparison `==`: a NaN equals nothing, the two zeros are equal. -/
def eq : Binary64 → Binary64 → Bool
  | finite s m e, finite t k f => (m = 0 && k = 0) || (s = t && m = k && e = f)
  | infinite s, infinite t => s = t
  | _, _ => false

/-- The value `+0.0`. -/
def zero : Binary64 := signedZero false

end Binary64

/-! ### Decimal text to binary64 -/

/-- A decimal or hexadecimal literal as scanned: the value is
`(-1)^negative * digits * base^scale`, with `base` ten or two. -/
structure Literal where
  /-- Whether a minus sign leads. -/
  negative : Bool
  /-- The digits of the mantissa, read as one number. -/
  digits : Nat
  /-- The exponent of the base. -/
  scale : Int
  /-- Whether the base of `scale` is two (a hexadecimal literal). -/
  binary : Bool
  deriving DecidableEq, Repr

/-- The number a run of decimal digits spells, continuing from `acc`. -/
def decimalValue (acc : Nat) : List Char → Nat
  | [] => acc
  | c :: cs => decimalValue (10 * acc + digitValue c) cs

/-- Whether a character is a hexadecimal digit. -/
def isHexDigit (c : Char) : Bool :=
  c.isDigit || ('a'.toNat ≤ c.toNat && c.toNat ≤ 'f'.toNat) ||
    ('A'.toNat ≤ c.toNat && c.toNat ≤ 'F'.toNat)

/-- The value of a hexadecimal digit. -/
def hexDigitValue (c : Char) : Nat :=
  if c.isDigit then digitValue c
  else if 'a'.toNat ≤ c.toNat then c.toNat - 'a'.toNat + 10
  else c.toNat - 'A'.toNat + 10

/-- The number a run of hexadecimal digits spells, continuing from `acc`. -/
def hexValue (acc : Nat) : List Char → Nat
  | [] => acc
  | c :: cs => hexValue (16 * acc + hexDigitValue c) cs

/-- An optional sign at the head of a text: whether it is a minus, and the
text after it. -/
def scanSign : List Char → Bool × List Char
  | '-' :: cs => (true, cs)
  | '+' :: cs => (false, cs)
  | cs => (false, cs)

/-- An optional exponent part `e` or `E` (`p` or `P` when `binary`), optional
sign, digits: its value and the text after it.  Without a digit nothing is
taken. -/
def scanExponent (binary : Bool) (cs : List Char) : Int × List Char :=
  match cs with
  | [] => (0, cs)
  | c :: cs1 =>
    if (if binary then c = 'p' ∨ c = 'P' else c = 'e' ∨ c = 'E') then
      let signed := scanSign cs1
      let ds := signed.2.takeWhile Char.isDigit
      if ds = [] then (0, cs)
      else ((if signed.1 then -1 else 1) * (decimalValue 0 ds : Int),
        signed.2.dropWhile Char.isDigit)
    else (0, cs)

/-- The longest decimal floating literal at the head of a text (after the
sign): digits with an optional point, at least one digit, and an optional
exponent part; with it the text that follows. -/
def scanDecimal (negative : Bool) (cs : List Char) : Option (Literal × List Char) :=
  let whole := cs.takeWhile Char.isDigit
  let rest := cs.dropWhile Char.isDigit
  match rest with
  | '.' :: rest1 =>
    let frac := rest1.takeWhile Char.isDigit
    if whole = [] ∧ frac = [] then none
    else
      let ex := scanExponent false (rest1.dropWhile Char.isDigit)
      some ({ negative := negative, digits := decimalValue 0 (whole ++ frac),
              scale := ex.1 - frac.length, binary := false }, ex.2)
  | _ =>
    if whole = [] then none
    else
      let ex := scanExponent false rest
      some ({ negative := negative, digits := decimalValue 0 whole,
              scale := ex.1, binary := false }, ex.2)

/-- The longest hexadecimal floating literal after `0x`: hexadecimal digits
with an optional point, at least one digit, and an optional binary exponent
part. -/
def scanHex (negative : Bool) (cs : List Char) : Option (Literal × List Char) :=
  let whole := cs.takeWhile isHexDigit
  let rest := cs.dropWhile isHexDigit
  match rest with
  | '.' :: rest1 =>
    let frac := rest1.takeWhile isHexDigit
    if whole = [] ∧ frac = [] then none
    else
      let ex := scanExponent true (rest1.dropWhile isHexDigit)
      some ({ negative := negative, digits := hexValue 0 (whole ++ frac),
              scale := ex.1 - 4 * frac.length, binary := true }, ex.2)
  | _ =>
    if whole = [] then none
    else
      let ex := scanExponent true rest
      some ({ negative := negative, digits := hexValue 0 whole,
              scale := ex.1, binary := true }, ex.2)

/-- The binary64 value of a literal, correctly rounded. -/
def Literal.value (l : Literal) : Binary64 :=
  if l.binary then Binary64.roundScaled l.negative l.digits l.scale
  else if l.scale < 0 then Binary64.round l.negative l.digits (10 ^ (-l.scale).toNat)
  else Binary64.round l.negative (l.digits * 10 ^ l.scale.toNat) 1

/-- Whether `word` (in lower case) leads the text, letters of either case. -/
def leads (word : List Char) (cs : List Char) : Bool :=
  (cs.take word.length).map Char.toLower = word

/-- The text after a complete `(n-char-sequence)` that may follow `nan`:
letters, digits and underscores between brackets; otherwise the text as given. -/
def skipNanPayload (cs : List Char) : List Char :=
  match cs with
  | '(' :: cs1 =>
    match cs1.dropWhile (fun c => c.isAlphanum || c = '_') with
    | ')' :: cs2 => cs2
    | _ => cs
  | _ => cs

/-- The subject sequence of `strtod` after the white space: an infinity, a
NaN, a hexadecimal or a decimal literal; the value and the text that follows,
or `none` when there is no conversion. -/
def scanNumber (cs : List Char) : Option (Binary64 × List Char) :=
  let signed := scanSign cs
  let body := signed.2
  if leads "infinity".data body then some (Binary64.infinite signed.1, body.drop 8)
  else if leads "inf".data body then some (Binary64.infinite signed.1, body.drop 3)
  else if leads "nan".data body then some (Binary64.nan, skipNanPayload (body.drop 3))
  else
    let hex :=
      if leads "0x".data body then scanHex signed.1 (body.drop 2) else none
    match hex with
    | some (l, rest) => some (l.value, rest)
    | none =>
      match scanDecimal signed.1 body with
      | some (l, rest) => some (l.value, rest)
      | none => none

/-- The function `std::strtod` of the GNU C library in the "C" locale: white
space is skipped, the longest subject sequence is converted; without one the
value is `0.0` and `endPtr` is the start. -/
def strtod (cs : List Char) : Binary64 × Nat :=
  match scanNumber (cs.dropWhile isspace) with
  | some (v, rest) => (v, cs.length - rest.length)
  | none => (Binary64.zero, 0)

/-- The characters that `num_get` of the GNU C++ library gathers for a
floating value after the sign and the leading zeros, with the flags "a digit
was met", "the point was met", "the exponent letter was met", "the exponent
letter was the last character" (a sign may follow it); and the characters
left in the stream. -/
def gatherFloat : Bool → Bool → Bool → Bool → List Char → List Char × List Char
  | _, _, _, _, [] => ([], [])
  | mant, dec, sci, afterE, c :: cs =>
    if afterE = true ∧ (c = '+' ∨ c = '-') then
      let r := gatherFloat mant dec sci false cs
      (c :: r.1, r.2)
    else if c.isDigit then
      let r := gatherFloat true dec sci false cs
      (c :: r.1, r.2)
    else if c = '.' ∧ dec = false ∧ sci = false then
      let r := gatherFloat mant true sci false cs
      ('.' :: r.1, r.2)
    else if (c = 'e' ∨ c = 'E') ∧ sci = false ∧ mant = true then
      let r := gatherFloat mant dec true true cs
      ('e' :: r.1, r.2)
    else ([], c :: cs)

/-- The extraction `num_get::get` for `double` of the GNU C++ library in the
"C" locale: a sign, leading zeros (kept as one), then the characters of
`gatherFloat`; the gathered text must convert as a whole and within range. -/
def numGet (cs : List Char) : Option Binary64 × List Char :=
  let sign : List Char × List Char :=
    match cs with
    | '+' :: cs1 => (['+'], cs1)
    | '-' :: cs1 => (['-'], cs1)
    | _ => ([], cs)
  let afterZeros := sign.2.dropWhile (fun c => c = '0')
  let zeros : List Char := if afterZeros.length < sign.2.length then ['0'] else []
  let body := gatherFloat (decide (zeros ≠ [])) false false false afterZeros
  let gathered := sign.1 ++ zeros ++ body.1
  match scanNumber gathered with
  | some (Binary64.finite s m e, []) => (some (Binary64.finite s m e), body.2)
  | _ => (none, body.2)

/-- The function `QString::toDouble` of Qt, which converts in the "C" locale:
white space at both ends is dropped; `nan`, `inf`, `+inf`, `-inf` in letters
of either case are taken; otherwise the whole text must be one decimal
literal, and a value out of range, or a zero from a mantissa with a digit that
is not zero, is a failure. -/
def toDouble (text : String) : Option Binary64 :=
  let trimmed := ((text.data.dropWhile isspace).reverse.dropWhile isspace).reverse
  let lower := trimmed.map Char.toLower
  if lower = "nan".data then some Binary64.nan
  else if lower = "inf".data ∨ lower = "+inf".data then some (Binary64.infinite false)
  else if lower = "-inf".data then some (Binary64.infinite true)
  else
    let signed := scanSign trimmed
    match scanDecimal signed.1 signed.2 with
    | some (l, []) =>
      match l.value with
      | Binary64.finite s m e =>
        if m = 0 ∧ l.digits ≠ 0 then none else some (Binary64.finite s m e)
      | _ => none
    | _ => none

/-! ### Binary64 to decimal text -/

/-- The decimal digits of `n`, the last `width` of them, with zeros in front
where `n` has fewer. -/
def digitsFixed : Nat → Nat → List Char
  | 0, _ => []
  | width + 1, n => digitsFixed width (n / 10) ++ [Char.ofNat ('0'.toNat + n % 10)]

/-- The number of decimal digits of `n`, counted in at most `fuel` steps. -/
def decimalLengthWithin : Nat → Nat → Nat
  | 0, _ => 0
  | fuel + 1, n => if n = 0 then 0 else decimalLengthWithin fuel (n / 10) + 1

/-- The decimal digits of `n`; `0` for zero. -/
def digitsOf (n : Nat) : List Char :=
  if n = 0 then ['0'] else digitsFixed (decimalLengthWithin n n) n

/-- The least `k` with `d ≤ n * 10^k`, looked for in at most `fuel` steps. -/
def decimalShift : Nat → Nat → Nat → Nat
  | 0, _, _ => 0
  | fuel + 1, n, d => if d ≤ n then 0 else decimalShift fuel (10 * n) d + 1

/-- The decimal exponent of `n / d` (both positive): the `x` with
`10^x ≤ n / d < 10^(x+1)`. -/
def decimalExponent (n d : Nat) : Int :=
  if d ≤ n then (decimalLengthWithin (n / d) (n / d) : Int) - 1
  else -(decimalShift 400 n d : Int)

/-- A text without the zeros at its end. -/
def dropTrailingZeros (cs : List Char) : List Char :=
  (cs.reverse.dropWhile (fun c => c = '0')).reverse

/-- The conversion `%g` with precision 6 of a positive `n / d`: six
significant digits, rounded to nearest with ties to even; exponent style when
the decimal exponent is below -4 or at least 6; zeros at the end dropped. -/
def formatPositive (n d : Nat) : List Char :=
  let x0 := decimalExponent n d
  let num := if x0 < 5 then n * 10 ^ (5 - x0).toNat else n
  let den := if x0 < 5 then d else d * 10 ^ (x0 - 5).toNat
  let q := num / den
  let r := num % den
  let q1 := if den < 2 * r ∨ (2 * r = den ∧ q % 2 = 1) then q + 1 else q
  let sig := if q1 = 10 ^ 6 then 10 ^ 5 else q1
  let x : Int := if q1 = 10 ^ 6 then x0 + 1 else x0
  if x < -4 ∨ 6 ≤ x then
    let ds := digitsFixed 6 sig
    let frac := dropTrailingZeros (ds.drop 1)
    let ex := x.natAbs
    ds.take 1 ++ (if frac = [] then [] else '.' :: frac) ++
      ['e', if x < 0 then '-' else '+'] ++ (if ex < 10 then digitsFixed 2 ex else digitsOf ex)
  else
    let places := (5 - x).toNat
    let frac := dropTrailingZeros (digitsFixed places (sig % 10 ^ places))
    digitsOf (sig / 10 ^ places) ++ (if frac = [] then [] else '.' :: frac)

/-- The text of a value under the conversion `%g` with precision 6, which both
`std::cout << value` and `QString::arg(value)` use by default. -/
def formatG : Binary64 → String
  | Binary64.nan => "nan"
  | Binary64.infinite s => if s then "-inf" else "inf"
  | Binary64.finite s m e =>
    String.mk ((if s then ['-'] else []) ++
      (if m = 0 then ['0']
       else if e < 0 then formatPositive m (2 ^ (-e).toNat)
       else formatPositive (m * 2 ^ e.toNat) 1))

/-- The concrete instance of the library: binary64 arithmetic, the
conversions of the GNU C and C++ libraries and of Qt in the "C" locale. -/
def reference : Lib Binary64 where
  zero := Binary64.zero
  add := Binary64.add
  sub := Binary64.sub
  mul := Binary64.mul
  div := Binary64.div
  eq := Binary64.eq
  toDouble := toDouble
  argDouble := formatG
  strtod := strtod
  numGet := numGet
  putDouble := formatG

/-! ## Statements about one request -/

/-- The widget shows the value `v`: the error label is hidden and the result
label reads `Result: ` followed by the text of `v`. -/
def ShowsResult {D : Type} (L : Lib D) (w : CalculatorWidget) (v : D) : Prop :=
  w.errorVisible = false ∧ w.resultLabel = "Result: " ++ L.argDouble v

/-- The widget shows the error `message`: the error label is visible with that
text and the result label reads `Result: --`. -/
def ShowsError (w : CalculatorWidget) (message : String) : Prop :=
  w.errorVisible = true ∧ w.errorLabel = message ∧ w.resultLabel = "Result: --"

/-- The iteration of `main` that starts at console `k` reads a first token
that is not `q` or `Q` and passes the check on `strtod` with value `lhs`; `s1`
is `std::cin` after the token. -/
def ReadsLeft {D : Type} (L : Lib D) (k : Console) (lhs : D) (s1 : Cin) : Prop :=
  ∃ firstToken : String, extractString k.cin = (some firstToken, s1) ∧
    firstToken ≠ "q" ∧ firstToken ≠ "Q" ∧
    (L.strtod (cStr firstToken)).1 = lhs ∧
    (L.strtod (cStr firstToken)).2 ≠ 0 ∧
    ((cStr firstToken).drop (L.strtod (cStr firstToken)).2).headD '\x00' = '\x00'

/-- The iteration of `main` that starts at console `k` reads the left operand
`lhs`, the operator character `op` and the right operand `rhs`; `s3` is
`std::cin` after the three. -/
def ReadsRequest {D : Type} (L : Lib D) (k : Console) (lhs : D) (op : Char) (rhs : D)
    (s3 : Cin) : Prop :=
  ∃ s1 s2 : Cin, ReadsLeft L k lhs s1 ∧ extractChar s1 = (some op, s2) ∧
    extractDouble L s2 = (some rhs, s3)

/-- The items an iteration writes up to the prompt for the right operand. -/
def prompts : List String :=
  ["输入表达式: ", "请输入运算符 (+, -, *, /): ", "请输入第二个数字: "]

/-! ## Concrete inputs -/

/-- A widget as the constructor leaves it, with the given texts in the two
line edits and the given current text of the selector. -/
def widgetWith (lhs op rhs : String) : CalculatorWidget :=
  { lhsInput := lhs, rhsInput := rhs, operatorSelector := op, resultLabel := "Result: --",
    errorLabel := "", errorVisible := false, logView := [], debugOutput := [] }

/-- The stream `std::cin` in good state with the given text left to read. -/
def cinWith (text : String) : Cin :=
  { buffer := text.data, failbit := false, eofbit := false }

/-- The binary64 value of the integer `3`. -/
def three : Binary64 := Binary64.finite false 6755399441055744 (-51)

/-- The binary64 value of the integer `4`. -/
def four : Binary64 := Binary64.finite false 4503599627370496 (-50)

/-- The binary64 value of the integer `10`. -/
def ten : Binary64 := Binary64.finite false 5629499534213120 (-49)

/-- The binary64 value of the integer `1`. -/
def one : Binary64 := Binary64.finite false 4503599627370496 (-52)

/-- The binary64 value nearest to `1e-300`. -/
def tiny : Binary64 := Binary64.finite false 6032057205060441 (-1049)

/-- The binary64 value of `-2.5`. -/
def minusTwoAndHalf : Binary64 := Binary64.finite true 5629499534213120 (-51)

/-! ## Lemmas on `QString::arg` and on `calculate` -/

theorem arg_result (x : String) : arg (tr "Result: %1") x = "Result: " ++ x := by
  apply String.ext
  show 'R' :: 'e' :: 's' :: 'u' :: 'l' :: 't' :: ':' :: ' ' :: (x.data ++ []) = _
  rw [List.append_nil]
  rfl

theorem appendLog_labels (w : CalculatorWidget) (message : String) :
    (appendLog w message).errorVisible = w.errorVisible ∧
    (appendLog w message).errorLabel = w.errorLabel ∧
    (appendLog w message).resultLabel = w.resultLabel := ⟨rfl, rfl, rfl⟩

theorem showError_shows (w : CalculatorWidget) (message : String) :
    ShowsError (showError w message) message := ⟨rfl, rfl, rfl⟩

/-- When an operand does not convert, `calculate` shows the error "invalid
number". -/
theorem calculate_invalid {D : Type} (L : Lib D) (now : String) (w : CalculatorWidget)
    (h : L.toDouble w.lhsInput = none ∨ L.toDouble w.rhsInput = none) :
    ShowsError (calculate L now w) "请输入有效的数字。" := by
  unfold calculate
  rcases h with h | h
  · simp only [h]
    exact ⟨rfl, rfl, rfl⟩
  · simp only [h]
    cases L.toDouble w.lhsInput <;> exact ⟨rfl, rfl, rfl⟩

/-- When both operands convert and the operator chain leaves a value,
`calculate` shows that value and leaves the text of the error label. -/
theorem calculate_value {D : Type} (L : Lib D) (now : String) (w : CalculatorWidget)
    (a b v : D) (ha : L.toDouble w.lhsInput = some a) (hb : L.toDouble w.rhsInput = some b)
    (hv : dispatch L w.operatorSelector a b = some v) :
    ShowsResult L (calculate L now w) v ∧ (calculate L now w).errorLabel = w.errorLabel := by
  unfold calculate
  simp only [ha, hb, hv]
  exact ⟨⟨rfl, arg_result _⟩, rfl⟩

/-- When both operands convert and the `÷` branch finds the divisor equal to
`0.0`, `calculate` shows the error "division by zero". -/
theorem calculate_zero_divisor {D : Type} (L : Lib D) (now : String) (w : CalculatorWidget)
    (a b : D) (ha : L.toDouble w.lhsInput = some a) (hb : L.toDouble w.rhsInput = some b)
    (hv : dispatch L w.operatorSelector a b = none) :
    ShowsError (calculate L now w) "除数不能为0。" := by
  unfold calculate
  simp only [ha, hb, hv]
  exact ⟨rfl, rfl, rfl⟩

/-- What `calculate` leaves in the labels, by the conversions of the two line
edits and the operator chain. -/
theorem calculate_labels {D : Type} (L : Lib D) (now : String) (w : CalculatorWidget) :
    ((L.toDouble w.lhsInput = none ∨ L.toDouble w.rhsInput = none) ∧
      ShowsError (calculate L now w) "请输入有效的数字。") ∨
    (∃ a b, L.toDouble w.lhsInput = some a ∧ L.toDouble w.rhsInput = some b ∧
      dispatch L w.operatorSelector a b = none ∧
      ShowsError (calculate L now w) "除数不能为0。") ∨
    (∃ a b v, L.toDouble w.lhsInput = some a ∧ L.toDouble w.rhsInput = some b ∧
      dispatch L w.operatorSelector a b = some v ∧
      ShowsResult L (calculate L now w) v ∧ (calculate L now w).errorLabel = w.errorLabel) := by
  cases ha : L.toDouble w.lhsInput with
  | none => exact Or.inl ⟨Or.inl rfl, calculate_invalid L now w (Or.inl ha)⟩
  | some a =>
    cases hb : L.toDouble w.rhsInput with
    | none => exact Or.inl ⟨Or.inr rfl, calculate_invalid L now w (Or.inr hb)⟩
    | some b =>
      cases hv : dispatch L w.operatorSelector a b with
      | none =>
        exact Or.inr (Or.inl ⟨a, b, rfl, rfl, hv, calculate_zero_divisor L now w a b ha hb hv⟩)
      | some v =>
        exact Or.inr (Or.inr ⟨a, b, v, rfl, rfl, hv, calculate_value L now w a b v ha hb hv⟩)

/-- The method `calculate` leaves the texts it reads as they are. -/
theorem calculate_inputs {D : Type} (L : Lib D) (now : String) (w : CalculatorWidget) :
    (calculate L now w).lhsInput = w.lhsInput ∧
    (calculate L now w).operatorSelector = w.operatorSelector ∧
    (calculate L now w).rhsInput = w.rhsInput := by
  cases ha : L.toDouble w.lhsInput with
  | none =>
    unfold calculate
    simp only [ha]
    exact ⟨rfl, rfl, rfl⟩
  | some a =>
    cases hb : L.toDouble w.rhsInput with
    | none =>
      unfold calculate
      simp only [ha, hb]
      exact ⟨rfl, rfl, rfl⟩
    | some b =>
      cases hv : dispatch L w.operatorSelector a b with
      | none =>
        unfold calculate
        simp only [ha, hb, hv]
        exact ⟨rfl, rfl, rfl⟩
      | some v =>
        unfold calculate
        simp only [ha, hb, hv]
        exact ⟨rfl, rfl, rfl⟩

/-- Two runs of `calculate` on the same three texts agree on the result label
and on the visibility of the error label, and on the text of the error label
when it is visible; a run that succeeds leaves the text of the error label. -/
theorem calculate_same_inputs {D : Type} (L : Lib D) (now1 now2 : String)
    (w1 w2 : CalculatorWidget) (hl : w1.lhsInput = w2.lhsInput)
    (ho : w1.operatorSelector = w2.operatorSelector) (hr : w1.rhsInput = w2.rhsInput) :
    (calculate L now1 w1).resultLabel = (calculate L now2 w2).resultLabel ∧
    (calculate L now1 w1).errorVisible = (calculate L now2 w2).errorVisible ∧
    ((calculate L now1 w1).errorVisible = true →
      (calculate L now1 w1).errorLabel = (calculate L now2 w2).errorLabel) ∧
    ((calculate L now1 w1).errorVisible = false →
      (calculate L now1 w1).errorLabel = w1.errorLabel) := by
  rcases calculate_labels L now1 w1 with ⟨h, e1⟩ | ⟨a, b, ha, hb, hv, e1⟩ | ⟨a, b, v, ha, hb, hv, r1, k1⟩
  · have e2 := calculate_invalid L now2 w2 (by rw [← hl, ← hr]; exact h)
    refine ⟨by rw [e1.2.2, e2.2.2], by rw [e1.1, e2.1], fun _ => by rw [e1.2.1, e2.2.1],
      fun hf => ?_⟩
    rw [e1.1] at hf
    exact absurd hf (by decide)
  · have e2 := calculate_zero_divisor L now2 w2 a b (by rw [← hl]; exact ha)
      (by rw [← hr]; exact hb) (by rw [← ho]; exact hv)
    refine ⟨by rw [e1.2.2, e2.2.2], by rw [e1.1, e2.1], fun _ => by rw [e1.2.1, e2.2.1],
      fun hf => ?_⟩
    rw [e1.1] at hf
    exact absurd hf (by decide)
  · have r2 := (calculate_value L now2 w2 a b v (by rw [← hl]; exact ha)
      (by rw [← hr]; exact hb) (by rw [← ho]; exact hv)).1
    refine ⟨by rw [r1.2, r2.2], by rw [r1.1, r2.1], fun ht => ?_, fun _ => k1⟩
    rw [r1.1] at ht
    exact absurd ht (by decide)

/-- In every state the program reaches, the current text of the selector is
one of the items the constructor gave it. -/
theorem reachable_selector {D : Type} (L : Lib D) (w : CalculatorWidget)
    (h : Reachable L w) : w.operatorSelector ∈ operatorItems := by
  induction h with
  | constructed => decide
  | typedLeft w text _ ih => exact ih
  | typedRight w text _ ih => exact ih
  | selected w item _ hmem _ => exact hmem
  | computed w now _ ih =>
    rw [(calculate_inputs L now w).2.1]
    exact ih
  | clearedLog w _ ih => exact ih

/-- An operator text that is none of `+`, `-`, `×`, `÷` takes no branch of the
operator chain: `result` keeps its initial `0.0`, whatever the operands. -/
theorem dispatch_unmatched {D : Type} (L : Lib D) (op : String) (a b : D)
    (h1 : op ≠ "+") (h2 : op ≠ "-") (h3 : op ≠ "×") (h4 : op ≠ "÷") :
    dispatch L op a b = some L.zero := by
  simp [dispatch, h1, h2, h3, h4]

/-- An operator character that is none of `+`, `-`, `*`, `/` falls to the
`default` case of the `switch`. -/
theorem switchOp_unmatched {D : Type} (L : Lib D) (op : Char) (a b : D)
    (h : ¬ (op = '+' ∨ op = '-' ∨ op = '*' ∨ op = '/')) :
    switchOp L op a b = Switched.unknown := by
  simp only [not_or] at h
  simp [switchOp, h.1, h.2.1, h.2.2.1, h.2.2.2]

/-! ## Lemmas on the loop of `main` -/

/-- An iteration whose first token cannot be read leaves `main` with
`EXIT_FAILURE`. -/
theorem loopBody_unreadable {D : Type} (L : Lib D) (k : Console) (s1 : Cin)
    (h : extractString k.cin = (none, s1)) :
    loopBody L k = (Control.exit EXIT_FAILURE,
      { cin := s1, cout := k.cout ++ ["输入表达式: ", "输入错误，程序退出。\n"] }) := by
  unfold loopBody
  simp [Console.put, h]

/-- An iteration whose first token is `q` or `Q` leaves `main` with
`EXIT_SUCCESS`. -/
theorem loopBody_quit {D : Type} (L : Lib D) (k : Console) (firstToken : String) (s1 : Cin)
    (h : extractString k.cin = (some firstToken, s1))
    (hq : firstToken = "q" ∨ firstToken = "Q") :
    loopBody L k = (Control.exit EXIT_SUCCESS,
      { cin := s1, cout := k.cout ++ ["输入表达式: ", "再见！\n"] }) := by
  unfold loopBody
  simp [Console.put, h, hq]

/-- An iteration whose first token fails the check on `strtod` writes "invalid
number", clears the input and continues. -/
theorem loopBody_invalid_left {D : Type} (L : Lib D) (k : Console) (firstToken : String)
    (s1 : Cin) (h : extractString k.cin = (some firstToken, s1))
    (hq : firstToken ≠ "q") (hQ : firstToken ≠ "Q")
    (hbad : (L.strtod (cStr firstToken)).2 = 0 ∨
      ((cStr firstToken).drop (L.strtod (cStr firstToken)).2).headD '\x00' ≠ '\x00') :
    loopBody L k = (Control.next,
      clearInput { cin := s1, cout := k.cout ++ ["输入表达式: ", "请输入有效的数字。\n"] }) := by
  unfold loopBody
  simp only [Console.put, h, hq, hQ, or_self, if_false, hbad, if_true]
  simp

/-- After a valid left operand, an iteration goes on with `readOperator`. -/
theorem loopBody_after_left {D : Type} (L : Lib D) (k : Console) (lhs : D) (s1 : Cin)
    (h : ReadsLeft L k lhs s1) :
    loopBody L k =
      match readOperator { cin := s1, cout := k.cout ++ ["输入表达式: "] } with
      | (none, k3) => (Control.next, clearInput k3)
      | (some op, k3) =>
        match readNumber L "请输入第二个数字: " k3 with
        | (none, k4) => (Control.next, clearInput (k4.put "请输入有效的数字。\n"))
        | (some rhs, k4) =>
          match switchOp L op lhs rhs with
          | Switched.result result =>
            (Control.next, ((k4.put "结果: ").put (L.putDouble result)).put "\n")
          | Switched.divisionByZero => (Control.next, k4.put "除数不能为0。\n")
          | Switched.unknown => (Control.next, k4.put "未知错误。\n") := by
  obtain ⟨firstToken, h1, hq, hQ, hv, hn, he⟩ := h
  unfold loopBody
  simp only [Console.put, h1, hq, hQ, or_self, if_false, hn, he, ne_eq, not_true_eq_false,
    hv]

/-- An operator character outside `+ - * /` makes the iteration write "invalid
operator", clear the input and continue, without reading a right operand. -/
theorem loopBody_invalid_operator {D : Type} (L : Lib D) (k : Console) (lhs : D)
    (s1 s2 : Cin) (op : Char) (h : ReadsLeft L k lhs s1)
    (hop : extractChar s1 = (some op, s2))
    (hbad : ¬ (op = '+' ∨ op = '-' ∨ op = '*' ∨ op = '/')) :
    loopBody L k = (Control.next,
      clearInput { cin := s2, cout := k.cout ++
        ["输入表达式: ", "请输入运算符 (+, -, *, /): ", "无效的运算符。\n"] }) := by
  rw [loopBody_after_left L k lhs s1 h]
  simp [readOperator, Console.put, hop, hbad]

/-- After a valid left operand and an operator character among `+ - * /`, a
right operand that does not convert makes the iteration write "invalid
number", clear the input and continue. -/
theorem loopBody_invalid_right {D : Type} (L : Lib D) (k : Console) (lhs : D)
    (s1 s2 s3 : Cin) (op : Char) (h : ReadsLeft L k lhs s1)
    (hop : extractChar s1 = (some op, s2))
    (hgood : op = '+' ∨ op = '-' ∨ op = '*' ∨ op = '/')
    (hrhs : extractDouble L s2 = (none, s3)) :
    loopBody L k = (Control.next,
      clearInput { cin := s3, cout := k.cout ++ prompts ++ ["请输入有效的数字。\n"] }) := by
  rw [loopBody_after_left L k lhs s1 h]
  simp [readOperator, readNumber, Console.put, hop, hgood, hrhs, prompts]

/-- After the three parts of a request are read, an iteration ends in the
`switch`. -/
theorem loopBody_request {D : Type} (L : Lib D) (k : Console) (lhs rhs : D) (op : Char)
    (s3 : Cin) (h : ReadsRequest L k lhs op rhs s3)
    (hgood : op = '+' ∨ op = '-' ∨ op = '*' ∨ op = '/') :
    loopBody L k =
      match switchOp L op lhs rhs with
      | Switched.result result =>
        (Control.next, { cin := s3, cout := k.cout ++ prompts ++
          ["结果: ", L.putDouble result, "\n"] })
      | Switched.divisionByZero =>
        (Control.next, { cin := s3, cout := k.cout ++ prompts ++ ["除数不能为0。\n"] })
      | Switched.unknown =>
        (Control.next, { cin := s3, cout := k.cout ++ prompts ++ ["未知错误。\n"] }) := by
  obtain ⟨s1, s2, hl, hop, hrhs⟩ := h
  rw [loopBody_after_left L k lhs s1 hl]
  simp only [readOperator, readNumber, Console.put, hop, hgood, hrhs, if_true]
  cases switchOp L op lhs rhs <;> simp [prompts]

/-- An iteration whose first token is read and is neither `q` nor `Q` ends
with `continue` or at the end of the body, whatever the rest of the input
is. -/
theorem loopBody_continues {D : Type} (L : Lib D) (k : Console) (firstToken : String)
    (s1 : Cin) (h : extractString k.cin = (some firstToken, s1))
    (hq : firstToken ≠ "q") (hQ : firstToken ≠ "Q") :
    (loopBody L k).1 = Control.next := by
  by_cases hbad : (L.strtod (cStr firstToken)).2 = 0 ∨
      ((cStr firstToken).drop (L.strtod (cStr firstToken)).2).headD '\x00' ≠ '\x00'
  · rw [loopBody_invalid_left L k firstToken s1 h hq hQ hbad]
  · have hl : ReadsLeft L k (L.strtod (cStr firstToken)).1 s1 :=
      ⟨firstToken, h, hq, hQ, rfl, fun h0 => hbad (Or.inl h0),
        not_not.mp (fun h1 => hbad (Or.inr h1))⟩
    rw [loopBody_after_left L k _ s1 hl]
    repeat' split
    all_goals rfl

/-- An iteration leaves `main` only with `EXIT_SUCCESS` on the first token `q`
or `Q`, or with `EXIT_FAILURE` on a first token that cannot be read. -/
theorem loopBody_exit_cases {D : Type} (L : Lib D) (k : Console) (status : Nat)
    (h : (loopBody L k).1 = Control.exit status) :
    (status = EXIT_SUCCESS ∧
      ∃ s1, extractString k.cin = (some "q", s1) ∨ extractString k.cin = (some "Q", s1)) ∨
    (status = EXIT_FAILURE ∧ ∃ s1, extractString k.cin = (none, s1)) := by
  rcases hx : extractString k.cin with ⟨_ | firstToken, s1⟩
  · rw [loopBody_unreadable L k s1 hx] at h
    exact Or.inr ⟨(Control.exit.inj h).symm, s1, rfl⟩
  · by_cases hq : firstToken = "q" ∨ firstToken = "Q"
    · rw [loopBody_quit L k firstToken s1 hx hq] at h
      refine Or.inl ⟨(Control.exit.inj h).symm, s1, ?_⟩
      rcases hq with hq | hq <;> subst hq
      · exact Or.inl rfl
      · exact Or.inr rfl
    · rw [loopBody_continues L k firstToken s1 hx (fun e => hq (Or.inl e))
        (fun e => hq (Or.inr e))] at h
      cases h

/-- When the loop of `main` ends, its last iteration is one that leaves. -/
theorem mainLoop_last_iteration {D : Type} (L : Lib D) (fuel : Nat) :
    ∀ (k : Console) (status : Nat) (k1 : Console), mainLoop L fuel k = some (status, k1) →
      ∃ k0, loopBody L k0 = (Control.exit status, k1) := by
  induction fuel with
  | zero => intro k status k1 h; cases h
  | succ n ih =>
    intro k status k1 h
    rcases hb : loopBody L k with ⟨_ | st, k2⟩
    · rw [mainLoop, hb] at h
      exact ih k2 status k1 h
    · rw [mainLoop, hb] at h
      cases h
      exact ⟨k, hb⟩

/-! ## The loop of `main` ends on every input -/

theorem dropWhile_length_le (p : Char → Bool) (cs : List Char) :
    (cs.dropWhile p).length ≤ cs.length :=
  (List.dropWhile_sublist p).length_le

theorem sentry_ready_length (s : Cin) (c : Char) (cs : List Char)
    (h : sentry s = Sentry.ready c cs) : cs.length < s.buffer.length := by
  unfold sentry at h
  split at h
  · split at h
    · cases h
    · rename_i c1 cs1 hd
      cases h
      have := dropWhile_length_le isspace s.buffer
      rw [hd] at this
      simpa using this
  · cases h

theorem sentry_failed_length (s s1 : Cin) (h : sentry s = Sentry.failed s1) :
    s1.buffer.length ≤ s.buffer.length := by
  unfold sentry at h
  split at h
  · split at h
    · cases h
      simp
    · cases h
  · cases h
    simp

theorem extractString_length (s s1 : Cin) (firstToken : String)
    (h : extractString s = (some firstToken, s1)) : s1.buffer.length < s.buffer.length := by
  unfold extractString at h
  split at h
  · cases h
  · rename_i c cs hs
    cases h
    have h1 := sentry_ready_length s c cs hs
    have h2 := dropWhile_length_le (fun x => !isspace x) cs
    simp only
    omega

theorem extractChar_length (s : Cin) : (extractChar s).2.buffer.length ≤ s.buffer.length := by
  unfold extractChar
  split
  · rename_i s1 hs
    exact sentry_failed_length s s1 hs
  · rename_i c cs hs
    have := sentry_ready_length s c cs hs
    simp only
    omega

theorem extractDouble_length {D : Type} (L : Lib D)
    (hL : ∀ cs, (L.numGet cs).2.length ≤ cs.length) (s : Cin) :
    (extractDouble L s).2.buffer.length ≤ s.buffer.length := by
  unfold extractDouble
  split
  · rename_i s1 hs
    exact sentry_failed_length s s1 hs
  · rename_i c cs hs
    have h1 := sentry_ready_length s c cs hs
    have h2 := hL (c :: cs)
    simp only [List.length_cons] at h2
    split
    · rename_i v rest hn
      rw [hn] at h2
      simp only at h2 ⊢
      omega
    · rename_i rest hn
      rw [hn] at h2
      simp only at h2 ⊢
      omega

theorem clearInput_length (k : Console) :
    (clearInput k).cin.buffer.length ≤ k.cin.buffer.length := by
  unfold clearInput Cin.ignoreLine Cin.clear
  simp only
  split
  · split
    · simp
    · rename_i c rest hd
      have := dropWhile_length_le (fun x => x != '\n') k.cin.buffer
      rw [hd] at this
      simp only [List.length_cons] at this
      simp only
      omega
  · simp

theorem readOperator_length (k : Console) :
    (readOperator k).2.cin.buffer.length ≤ k.cin.buffer.length := by
  have h := extractChar_length k.cin
  unfold readOperator
  simp only [Console.put]
  split
  · rename_i s hs
    rw [hs] at h
    exact h
  · rename_i op s hs
    rw [hs] at h
    split <;> exact h

theorem readNumber_length {D : Type} (L : Lib D)
    (hL : ∀ cs, (L.numGet cs).2.length ≤ cs.length) (prompt : String) (k : Console) :
    (readNumber L prompt k).2.cin.buffer.length ≤ k.cin.buffer.length := by
  have h := extractDouble_length L hL k.cin
  unfold readNumber
  simp only [Console.put]
  split
  · rename_i s hs
    rw [hs] at h
    exact h
  · rename_i v s hs
    rw [hs] at h
    exact h

/-- An iteration that continues has taken at least one character from
`std::cin`, when `num_get` leaves no more characters than it is given. -/
theorem loopBody_next_length {D : Type} (L : Lib D)
    (hL : ∀ cs, (L.numGet cs).2.length ≤ cs.length) (k : Console)
    (h : (loopBody L k).1 = Control.next) :
    (loopBody L k).2.cin.buffer.length < k.cin.buffer.length := by
  rcases hx : extractString k.cin with ⟨_ | firstToken, s1⟩
  · rw [loopBody_unreadable L k s1 hx] at h
    cases h
  · have h1 := extractString_length k.cin s1 firstToken hx
    by_cases hq : firstToken = "q" ∨ firstToken = "Q"
    · rw [loopBody_quit L k firstToken s1 hx hq] at h
      cases h
    · have hq1 : firstToken ≠ "q" := fun e => hq (Or.inl e)
      have hq2 : firstToken ≠ "Q" := fun e => hq (Or.inr e)
      by_cases hbad : (L.strtod (cStr firstToken)).2 = 0 ∨
          ((cStr firstToken).drop (L.strtod (cStr firstToken)).2).headD '\x00' ≠ '\x00'
      · rw [loopBody_invalid_left L k firstToken s1 hx hq1 hq2 hbad]
        have := clearInput_length
          { cin := s1, cout := k.cout ++ ["输入表达式: ", "请输入有效的数字。\n"] }
        simp only at this ⊢
        omega
      · have hl : ReadsLeft L k (L.strtod (cStr firstToken)).1 s1 :=
          ⟨firstToken, hx, hq1, hq2, rfl, fun h0 => hbad (Or.inl h0),
            not_not.mp (fun h3 => hbad (Or.inr h3))⟩
        rw [loopBody_after_left L k _ s1 hl]
        have h2 := readOperator_length { cin := s1, cout := k.cout ++ ["输入表达式: "] }
        simp only at h2
        split
        · rename_i k3 hop
          rw [hop] at h2
          have := clearInput_length k3
          simp only at h2 ⊢
          omega
        · rename_i op k3 hop
          rw [hop] at h2
          have h3 := readNumber_length L hL "请输入第二个数字: " k3
          simp only at h2
          split
          · rename_i k4 hn
            rw [hn] at h3
            have := clearInput_length (k4.put "请输入有效的数字。\n")
            simp only [Console.put] at h3 this ⊢
            omega
          · rename_i rhs k4 hn
            rw [hn] at h3
            simp only at h3
            split <;> simp only [Console.put] <;> omega

/-- The loop of `main` ends within one iteration more than the characters on
standard input, when `num_get` leaves no more characters than it is given. -/
theorem mainLoop_terminates {D : Type} (L : Lib D)
    (hL : ∀ cs, (L.numGet cs).2.length ≤ cs.length) (fuel : Nat) :
    ∀ k : Console, k.cin.buffer.length < fuel → ∃ r, mainLoop L fuel k = some r := by
  induction fuel with
  | zero => intro k h; omega
  | succ n ih =>
    intro k h
    rcases hb : loopBody L k with ⟨_ | status, k1⟩
    · have hlen := loopBody_next_length L hL k (by rw [hb])
      rw [hb] at hlen
      simp only at hlen
      rw [mainLoop, hb]
      exact ih k1 (by omega)
    · rw [mainLoop, hb]
      exact ⟨_, rfl⟩

theorem gatherFloat_length (cs : List Char) :
    ∀ mant dec sci afterE : Bool,
      (gatherFloat mant dec sci afterE cs).2.length ≤ cs.length := by
  induction cs with
  | nil => intro mant dec sci afterE; simp [gatherFloat]
  | cons c cs ih =>
    intro mant dec sci afterE
    unfold gatherFloat
    split_ifs
    · have := ih mant dec sci false
      simp only [List.length_cons]
      omega
    · have := ih true dec sci false
      simp only [List.length_cons]
      omega
    · have := ih mant true sci false
      simp only [List.length_cons]
      omega
    · have := ih mant dec true true
      simp only [List.length_cons]
      omega
    · simp

theorem numGet_length (cs : List Char) : (numGet cs).2.length ≤ cs.length := by
  have key : ∀ (sign : List Char × List Char), sign.2.length ≤ cs.length →
      ∀ m, (gatherFloat m false false false
        (sign.2.dropWhile (fun c => c = '0'))).2.length ≤ cs.length := by
    intro sign hs m
    have h1 := gatherFloat_length (sign.2.dropWhile (fun c => c = '0')) m false false false
    have h2 := dropWhile_length_le (fun c => c = '0') sign.2
    omega
  unfold numGet
  simp only
  split <;> apply key <;> split <;> simp

/-- With the concrete instance, `main` ends on every standard input. -/
theorem main_reference_terminates (input : String) :
    ∃ r, main reference (input.length + 1) input = some r :=
  mainLoop_terminates reference numGet_length (input.length + 1)
    ((Console.start input).put "简单计算器 (输入 q 退出)\n") (Nat.lt_succ_self _)

/-! ## The claims -/

set_option maxRecDepth 100000
set_option exponentiation.threshold 2000

/-- C1: for operands that both front ends have read as `a` and `b`, each of
the operators Add, Subtract and Multiply succeeds with the value `a + b`,
`a - b`, `a * b` of the `double` arithmetic, whatever `a` and `b` are: the
widget (selector text `+`, `-`, `×`) hides the error label and shows the
value, and the console (operator `+`, `-`, `*`) writes the value as its result
and continues, with no error message. -/
theorem C1_add_subtract_multiply_succeed {D : Type} (L : Lib D) :
    (∀ (now : String) (w : CalculatorWidget) (a b : D),
      L.toDouble w.lhsInput = some a → L.toDouble w.rhsInput = some b →
      (w.operatorSelector = "+" → ShowsResult L (calculate L now w) (L.add a b)) ∧
      (w.operatorSelector = "-" → ShowsResult L (calculate L now w) (L.sub a b)) ∧
      (w.operatorSelector = "×" → ShowsResult L (calculate L now w) (L.mul a b))) ∧
    (∀ (k : Console) (a b : D) (s3 : Cin),
      (ReadsRequest L k a '+' b s3 → loopBody L k = (Control.next,
        { cin := s3, cout := k.cout ++ prompts ++ ["结果: ", L.putDouble (L.add a b), "\n"] })) ∧
      (ReadsRequest L k a '-' b s3 → loopBody L k = (Control.next,
        { cin := s3, cout := k.cout ++ prompts ++ ["结果: ", L.putDouble (L.sub a b), "\n"] })) ∧
      (ReadsRequest L k a '*' b s3 → loopBody L k = (Control.next,
        { cin := s3, cout := k.cout ++ prompts ++ ["结果: ", L.putDouble (L.mul a b), "\n"] }))) := by
  refine ⟨fun now w a b ha hb => ⟨fun h => ?_, fun h => ?_, fun h => ?_⟩,
    fun k a b s3 => ⟨fun h => ?_, fun h => ?_, fun h => ?_⟩⟩
  · exact (calculate_value L now w a b _ ha hb (by rw [h]; rfl)).1
  · exact (calculate_value L now w a b _ ha hb (by rw [h]; rfl)).1
  · exact (calculate_value L now w a b _ ha hb (by rw [h]; rfl)).1
  · rw [loopBody_request L k a b '+' s3 h (by decide)]; rfl
  · rw [loopBody_request L k a b '-' s3 h (by decide)]; rfl
  · rw [loopBody_request L k a b '*' s3 h (by decide)]; rfl

/-- C1, witness: with `3` and `4` and the operator Add, the widget shows
`Result: 7` and the console, on the input `3 + 4`, writes the result `7`. -/
theorem C1_witness :
    (reference.toDouble (widgetWith "3" "+" "4").lhsInput = some three ∧
      reference.toDouble (widgetWith "3" "+" "4").rhsInput = some four ∧
      (widgetWith "3" "+" "4").operatorSelector = "+" ∧
      ShowsResult reference (calculate reference "2024-01-01T00:00:00" (widgetWith "3" "+" "4"))
        (reference.add three four) ∧
      (calculate reference "2024-01-01T00:00:00" (widgetWith "3" "+" "4")).resultLabel
        = "Result: 7") ∧
    (ReadsRequest reference (Console.start "3 + 4\n") three '+' four (cinWith "\n") ∧
      loopBody reference (Console.start "3 + 4\n") = (Control.next,
        { cin := cinWith "\n", cout := prompts ++ ["结果: ", "7", "\n"] })) := by
  have hr : ReadsRequest reference (Console.start "3 + 4\n") three '+' four (cinWith "\n") :=
    ⟨cinWith " + 4\n", cinWith " 4\n",
      ⟨"3", by decide, by decide, by decide, by decide, by decide, by decide⟩,
      by decide, by decide⟩
  exact ⟨⟨by decide, by decide, rfl,
    ((C1_add_subtract_multiply_succeed reference).1 "2024-01-01T00:00:00"
      (widgetWith "3" "+" "4") three four (by decide) (by decide)).1 rfl, by decide⟩,
    hr, ((C1_add_subtract_multiply_succeed reference).2 (Console.start "3 + 4\n") three four
      (cinWith "\n")).1 hr⟩

/-- C2: for operands read as `a` and `b` and the operator Divide, both front
ends decide by the comparison `b == 0.0` alone: when it holds, whatever `a`
is, they report the division by zero and no result (the widget shows the error
and `Result: --`, the console writes the error and no result item); when it
does not hold they succeed with the value `a / b`. -/
theorem C2_divide_checks_exact_zero {D : Type} (L : Lib D) :
    (∀ (now : String) (w : CalculatorWidget) (a b : D),
      L.toDouble w.lhsInput = some a → L.toDouble w.rhsInput = some b →
      w.operatorSelector = "÷" →
      (L.eq b L.zero = true → ShowsError (calculate L now w) "除数不能为0。") ∧
      (L.eq b L.zero = false → ShowsResult L (calculate L now w) (L.div a b))) ∧
    (∀ (k : Console) (a b : D) (s3 : Cin), ReadsRequest L k a '/' b s3 →
      (L.eq b L.zero = true → loopBody L k = (Control.next,
        { cin := s3, cout := k.cout ++ prompts ++ ["除数不能为0。\n"] })) ∧
      (L.eq b L.zero = false → loopBody L k = (Control.next,
        { cin := s3, cout := k.cout ++ prompts ++ ["结果: ", L.putDouble (L.div a b), "\n"] }))) := by
  refine ⟨fun now w a b ha hb hop => ⟨fun hz => ?_, fun hz => ?_⟩,
    fun k a b s3 h => ⟨fun hz => ?_, fun hz => ?_⟩⟩
  · exact calculate_zero_divisor L now w a b ha hb (by rw [hop]; simp [dispatch, hz])
  · exact (calculate_value L now w a b _ ha hb (by rw [hop]; simp [dispatch, hz])).1
  · rw [loopBody_request L k a b '/' s3 h (by decide)]
    simp [switchOp, hz]
  · rw [loopBody_request L k a b '/' s3 h (by decide)]
    simp [switchOp, hz]

/-- C2, witness: in the widget `10 ÷ 0`, `10 ÷ -0` and `0 ÷ 0` show the
division by zero, while `1 ÷ 4` shows `Result: 0.25` and `1 ÷ 1e-300`, with a
divisor close to zero, shows `Result: 1e+300`; the console reports the
division by zero on `10 / 0` and writes `0.25` on `1 / 4`. -/
theorem C2_witness :
    (reference.toDouble "10" = some ten ∧ reference.toDouble "0" = some Binary64.zero ∧
      reference.eq Binary64.zero reference.zero = true ∧
      ShowsError (calculate reference "2024-01-01T00:00:00" (widgetWith "10" "÷" "0"))
        "除数不能为0。" ∧
      ShowsError (calculate reference "2024-01-01T00:00:00" (widgetWith "0" "÷" "0"))
        "除数不能为0。") ∧
    (reference.toDouble "-0" = some (Binary64.signedZero true) ∧
      reference.eq (Binary64.signedZero true) reference.zero = true ∧
      ShowsError (calculate reference "2024-01-01T00:00:00" (widgetWith "10" "÷" "-0"))
        "除数不能为0。") ∧
    (reference.toDouble "1" = some one ∧ reference.toDouble "4" = some four ∧
      reference.eq four reference.zero = false ∧
      (calculate reference "2024-01-01T00:00:00" (widgetWith "1" "÷" "4")).resultLabel
        = "Result: 0.25" ∧
      ShowsResult reference (calculate reference "2024-01-01T00:00:00" (widgetWith "1" "÷" "4"))
        (reference.div one four)) ∧
    (reference.toDouble "1e-300" = some tiny ∧ reference.eq tiny reference.zero = false ∧
      (calculate reference "2024-01-01T00:00:00" (widgetWith "1" "÷" "1e-300")).resultLabel
        = "Result: 1e+300" ∧
      ShowsResult reference
        (calculate reference "2024-01-01T00:00:00" (widgetWith "1" "÷" "1e-300"))
        (reference.div one tiny)) ∧
    (ReadsRequest reference (Console.start "10 / 0\n") ten '/' Binary64.zero (cinWith "\n") ∧
      loopBody reference (Console.start "10 / 0\n") = (Control.next,
        { cin := cinWith "\n", cout := prompts ++ ["除数不能为0。\n"] })) ∧
    (ReadsRequest reference (Console.start "1 / 4\n") one '/' four (cinWith "\n") ∧
      loopBody reference (Console.start "1 / 4\n") = (Control.next,
        { cin := cinWith "\n", cout := prompts ++ ["结果: ", "0.25", "\n"] })) := by
  have h0 : ReadsRequest reference (Console.start "10 / 0\n") ten '/' Binary64.zero
      (cinWith "\n") :=
    ⟨cinWith " / 0\n", cinWith " 0\n",
      ⟨"10", by decide, by decide, by decide, by decide, by decide, by decide⟩,
      by decide, by decide⟩
  have h4 : ReadsRequest reference (Console.start "1 / 4\n") one '/' four (cinWith "\n") :=
    ⟨cinWith " / 4\n", cinWith " 4\n",
      ⟨"1", by decide, by decide, by decide, by decide, by decide, by decide⟩,
      by decide, by decide⟩
  refine ⟨⟨by decide, by decide, by decide, ?_, ?_⟩, ⟨by decide, by decide, ?_⟩,
    ⟨by decide, by decide, by decide, by decide, ?_⟩, ⟨by decide, by decide, by decide, ?_⟩,
    ⟨h0, ?_⟩, ⟨h4, ?_⟩⟩
  · exact ((C2_divide_checks_exact_zero reference).1 "2024-01-01T00:00:00"
      (widgetWith "10" "÷" "0") ten Binary64.zero (by decide) (by decide) rfl).1 (by decide)
  · exact ((C2_divide_checks_exact_zero reference).1 "2024-01-01T00:00:00"
      (widgetWith "0" "÷" "0") Binary64.zero Binary64.zero (by decide) (by decide) rfl).1
      (by decide)
  · exact ((C2_divide_checks_exact_zero reference).1 "2024-01-01T00:00:00"
      (widgetWith "10" "÷" "-0") ten (Binary64.signedZero true) (by decide) (by decide)
      rfl).1 (by decide)
  · exact ((C2_divide_checks_exact_zero reference).1 "2024-01-01T00:00:00"
      (widgetWith "1" "÷" "4") one four (by decide) (by decide) rfl).2 (by decide)
  · exact ((C2_divide_checks_exact_zero reference).1 "2024-01-01T00:00:00"
      (widgetWith "1" "÷" "1e-300") one tiny (by decide) (by decide) rfl).2 (by decide)
  · exact ((C2_divide_checks_exact_zero reference).2 (Console.start "10 / 0\n") ten
      Binary64.zero (cinWith "\n") h0).1 (by decide)
  · exact ((C2_divide_checks_exact_zero reference).2 (Console.start "1 / 4\n") one four
      (cinWith "\n") h4).2 (by decide)

/-- C3, at the failing input: on the console input `3 + 1.2.3` the right
operand token `1.2.3` is not a complete literal, yet `readNumber` takes `1.2`,
the iteration writes the result `4.2` with no "invalid number" message, and
`.3` stays in `std::cin` for the next iteration.  The sibling paths refuse the
same token: as the left operand on the console, and in either line edit of the
widget, it gives "invalid number". -/
theorem C3_console_right_operand_takes_prefix :
    loopBody reference (Console.start "3 + 1.2.3\n") = (Control.next,
      { cin := cinWith ".3\n", cout := prompts ++ ["结果: ", "4.2", "\n"] }) ∧
    loopBody reference (Console.start "1.2.3 + 3\n") = (Control.next,
      { cin := cinWith "", cout := ["输入表达式: ", "请输入有效的数字。\n"] }) ∧
    ShowsError (calculate reference "2024-01-01T00:00:00" (widgetWith "3" "+" "1.2.3"))
      "请输入有效的数字。" ∧
    ShowsError (calculate reference "2024-01-01T00:00:00" (widgetWith "1.2.3" "+" "3"))
      "请输入有效的数字。" := by
  refine ⟨by decide, by decide, ?_, ?_⟩
  · exact calculate_invalid reference _ _ (Or.inr (by decide))
  · exact calculate_invalid reference _ _ (Or.inl (by decide))

/-- C5, counterexample: on the console input `3 % abc` the left operand is
valid, the operator is not recognised and the right operand token `abc` does
not convert; the iteration writes the "invalid operator" message and not the
"invalid number" message, and never reads the right operand. -/
theorem C5_counterexample :
    ReadsLeft reference (Console.start "3 % abc\n") three (cinWith " % abc\n") ∧
    extractChar (cinWith " % abc\n") = (some '%', cinWith " abc\n") ∧
    (extractDouble reference (cinWith " abc\n")).1 = none ∧
    loopBody reference (Console.start "3 % abc\n") = (Control.next,
      { cin := cinWith "", cout :=
        ["输入表达式: ", "请输入运算符 (+, -, *, /): ", "无效的运算符。\n"] }) ∧
    "请输入有效的数字。\n" ∉ (loopBody reference (Console.start "3 % abc\n")).2.cout := by
  refine ⟨⟨"3", by decide, by decide, by decide, by decide, by decide, by decide⟩,
    by decide, by decide, by decide, by decide⟩

/-- C5, amended: in the widget the operands are validated first: when at least
one of them does not convert, `calculate` shows "invalid number" whatever the
operator text is.  On the console the parts are validated in the order they
are read: a first token that fails the check on `strtod` gives "invalid
number" whatever follows it; after a valid left operand an operator character
outside `+ - * /` gives "invalid operator" whatever follows it, the right
operand not being read; and after a valid left operand and an operator
character among `+ - * /`, a right operand that does not convert gives
"invalid number". -/
theorem C5_parse_error_in_reading_order {D : Type} (L : Lib D) :
    (∀ (now : String) (w : CalculatorWidget),
      L.toDouble w.lhsInput = none ∨ L.toDouble w.rhsInput = none →
      ShowsError (calculate L now w) "请输入有效的数字。") ∧
    (∀ (k : Console) (firstToken : String) (s1 : Cin),
      extractString k.cin = (some firstToken, s1) → firstToken ≠ "q" → firstToken ≠ "Q" →
      ((L.strtod (cStr firstToken)).2 = 0 ∨
        ((cStr firstToken).drop (L.strtod (cStr firstToken)).2).headD '\x00' ≠ '\x00') →
      loopBody L k = (Control.next,
        clearInput { cin := s1, cout := k.cout ++ ["输入表达式: ", "请输入有效的数字。\n"] })) ∧
    (∀ (k : Console) (lhs : D) (s1 s2 : Cin) (op : Char),
      ReadsLeft L k lhs s1 → extractChar s1 = (some op, s2) →
      ¬ (op = '+' ∨ op = '-' ∨ op = '*' ∨ op = '/') →
      loopBody L k = (Control.next,
        clearInput { cin := s2, cout := k.cout ++
          ["输入表达式: ", "请输入运算符 (+, -, *, /): ", "无效的运算符。\n"] })) ∧
    (∀ (k : Console) (lhs : D) (s1 s2 s3 : Cin) (op : Char),
      ReadsLeft L k lhs s1 → extractChar s1 = (some op, s2) →
      (op = '+' ∨ op = '-' ∨ op = '*' ∨ op = '/') →
      extractDouble L s2 = (none, s3) →
      loopBody L k = (Control.next,
        clearInput { cin := s3, cout := k.cout ++ prompts ++ ["请输入有效的数字。\n"] })) :=
  ⟨fun now w h => calculate_invalid L now w h,
    fun k firstToken s1 h hq hQ hbad => loopBody_invalid_left L k firstToken s1 h hq hQ hbad,
    fun k lhs s1 s2 op h hop hbad => loopBody_invalid_operator L k lhs s1 s2 op h hop hbad,
    fun k lhs s1 s2 s3 op h hop hgood hrhs =>
      loopBody_invalid_right L k lhs s1 s2 s3 op h hop hgood hrhs⟩

/-- C5, witness: the widget with `abc`, `%`, `4` shows "invalid number"; the
console writes "invalid number" on `abc % 4` and on `3 + abc`, and "invalid
operator" on `3 % 4`. -/
theorem C5_witness :
    (reference.toDouble (widgetWith "abc" "%" "4").lhsInput = none ∧
      ShowsError (calculate reference "2024-01-01T00:00:00" (widgetWith "abc" "%" "4"))
        "请输入有效的数字。") ∧
    (extractString (Console.start "abc % 4\n").cin = (some "abc", cinWith " % 4\n") ∧
      (reference.strtod (cStr "abc")).2 = 0 ∧
      loopBody reference (Console.start "abc % 4\n") = (Control.next,
        { cin := cinWith "", cout := ["输入表达式: ", "请输入有效的数字。\n"] })) ∧
    (ReadsLeft reference (Console.start "3 % 4\n") three (cinWith " % 4\n") ∧
      extractChar (cinWith " % 4\n") = (some '%', cinWith " 4\n") ∧
      loopBody reference (Console.start "3 % 4\n") = (Control.next,
        { cin := cinWith "", cout :=
          ["输入表达式: ", "请输入运算符 (+, -, *, /): ", "无效的运算符。\n"] })) ∧
    (ReadsLeft reference (Console.start "3 + abc\n") three (cinWith " + abc\n") ∧
      extractChar (cinWith " + abc\n") = (some '+', cinWith " abc\n") ∧
      extractDouble reference (cinWith " abc\n")
        = (none, { buffer := "abc\n".data, failbit := true, eofbit := false }) ∧
      loopBody reference (Console.start "3 + abc\n") = (Control.next,
        { cin := cinWith "", cout := prompts ++ ["请输入有效的数字。\n"] })) := by
  have hl : ReadsLeft reference (Console.start "3 + abc\n") three (cinWith " + abc\n") :=
    ⟨"3", by decide, by decide, by decide, by decide, by decide, by decide⟩
  have hp : ReadsLeft reference (Console.start "3 % 4\n") three (cinWith " % 4\n") :=
    ⟨"3", by decide, by decide, by decide, by decide, by decide, by decide⟩
  refine ⟨⟨by decide, ?_⟩, ⟨by decide, by decide, ?_⟩, ⟨hp, by decide, ?_⟩,
    ⟨hl, by decide, by decide, ?_⟩⟩
  · exact (C5_parse_error_in_reading_order reference).1 "2024-01-01T00:00:00"
      (widgetWith "abc" "%" "4") (Or.inl (by decide))
  · exact (C5_parse_error_in_reading_order reference).2.1 (Console.start "abc % 4\n") "abc"
      (cinWith " % 4\n") (by decide) (by decide) (by decide) (Or.inl (by decide))
  · exact (C5_parse_error_in_reading_order reference).2.2.1 (Console.start "3 % 4\n") three
      (cinWith " % 4\n") (cinWith " 4\n") '%' hp (by decide) (by decide)
  · exact (C5_parse_error_in_reading_order reference).2.2.2 (Console.start "3 + abc\n") three
      (cinWith " + abc\n") (cinWith " abc\n")
      { buffer := "abc\n".data, failbit := true, eofbit := false } '+' hl (by decide)
      (by decide) (by decide)

/-- C6, counterexample: the console does not take the second spelling.  On
the inputs `-2.5 × 4` and `10 ÷ 4` (the signs `×` and `÷` as their two bytes
in UTF-8) the left operand is valid, `readOperator` reads the first byte of
the sign and refuses it, and the iteration writes "invalid operator" and no
result. -/
theorem C6_counterexample :
    (ReadsLeft reference (Console.start "-2.5 \xc3\x97 4\n") minusTwoAndHalf
        (cinWith " \xc3\x97 4\n") ∧
      extractChar (cinWith " \xc3\x97 4\n") = (some '\xc3', cinWith "\x97 4\n") ∧
      loopBody reference (Console.start "-2.5 \xc3\x97 4\n") = (Control.next,
        { cin := cinWith "", cout :=
          ["输入表达式: ", "请输入运算符 (+, -, *, /): ", "无效的运算符。\n"] })) ∧
    (ReadsLeft reference (Console.start "10 \xc3\xb7 4\n") ten (cinWith " \xc3\xb7 4\n") ∧
      extractChar (cinWith " \xc3\xb7 4\n") = (some '\xc3', cinWith "\xb7 4\n") ∧
      loopBody reference (Console.start "10 \xc3\xb7 4\n") = (Control.next,
        { cin := cinWith "", cout :=
          ["输入表达式: ", "请输入运算符 (+, -, *, /): ", "无效的运算符。\n"] })) := by
  refine ⟨⟨⟨"-2.5", by decide, by decide, by decide, by decide, by decide, by decide⟩,
    by decide, by decide⟩,
    ⟨⟨"10", by decide, by decide, by decide, by decide, by decide, by decide⟩,
    by decide, by decide⟩⟩

/-- C6, amended: each front end takes one spelling of an operator and no
other.  The widget: its selector holds one of `+`, `-`, `×`, `÷` in every
state the program reaches, and the operator chain of `calculate` takes a
branch for these four texts only (any other text, `*` and `/` among them,
leaves `result` at `0.0` whatever the operands); with `×` it succeeds with
`a * b`, with `÷` it selects Divide.  The console: `readOperator` and the
`switch` take the characters `+`, `-`, `*`, `/` only; every other character,
so also the bytes of `×` and `÷`, is refused with "invalid operator" and no
result; with `*` it succeeds with `a * b`, with `/` it selects Divide. -/
theorem C6_one_spelling_per_front_end {D : Type} (L : Lib D) :
    (∀ (now : String) (w : CalculatorWidget) (a b : D),
      L.toDouble w.lhsInput = some a → L.toDouble w.rhsInput = some b →
      (w.operatorSelector = "×" → ShowsResult L (calculate L now w) (L.mul a b)) ∧
      (w.operatorSelector = "÷" → L.eq b L.zero = false →
        ShowsResult L (calculate L now w) (L.div a b))) ∧
    (∀ (k : Console) (a b : D) (s3 : Cin),
      (ReadsRequest L k a '*' b s3 → loopBody L k = (Control.next,
        { cin := s3, cout := k.cout ++ prompts ++ ["结果: ", L.putDouble (L.mul a b), "\n"] })) ∧
      (ReadsRequest L k a '/' b s3 → L.eq b L.zero = false → loopBody L k = (Control.next,
        { cin := s3, cout := k.cout ++ prompts ++
          ["结果: ", L.putDouble (L.div a b), "\n"] }))) ∧
    (∀ (op : String) (a b : D), op ≠ "+" → op ≠ "-" → op ≠ "×" → op ≠ "÷" →
      dispatch L op a b = some L.zero) ∧
    (∀ (w : CalculatorWidget), Reachable L w → w.operatorSelector ∈ operatorItems) ∧
    (∀ (k : Console) (lhs : D) (s1 s2 : Cin) (op : Char),
      ReadsLeft L k lhs s1 → extractChar s1 = (some op, s2) →
      ¬ (op = '+' ∨ op = '-' ∨ op = '*' ∨ op = '/') →
      loopBody L k = (Control.next,
        clearInput { cin := s2, cout := k.cout ++
          ["输入表达式: ", "请输入运算符 (+, -, *, /): ", "无效的运算符。\n"] })) ∧
    (∀ (op : Char) (a b : D), ¬ (op = '+' ∨ op = '-' ∨ op = '*' ∨ op = '/') →
      switchOp L op a b = Switched.unknown) := by
  refine ⟨fun now w a b ha hb => ⟨fun h => ?_, fun h hz => ?_⟩,
    fun k a b s3 => ⟨fun h => ?_, fun h hz => ?_⟩,
    fun op a b h1 h2 h3 h4 => dispatch_unmatched L op a b h1 h2 h3 h4,
    fun w hw => reachable_selector L w hw,
    fun k lhs s1 s2 op h hop hbad => loopBody_invalid_operator L k lhs s1 s2 op h hop hbad,
    fun op a b h => switchOp_unmatched L op a b h⟩
  · exact (calculate_value L now w a b _ ha hb (by rw [h]; rfl)).1
  · exact (calculate_value L now w a b _ ha hb (by rw [h]; simp [dispatch, hz])).1
  · rw [loopBody_request L k a b '*' s3 h (by decide)]; rfl
  · rw [loopBody_request L k a b '/' s3 h (by decide)]
    simp [switchOp, hz]

/-- C6, witness: the widget with `-2.5`, `×`, `4`, a state the program
reaches, shows `Result: -10`, and the console on the input `-2.5 * 4` writes
the result `-10`; the operator chain takes no branch for the text `*`, and the
console refuses the first byte of `×` on the input `-2.5 × 4`. -/
theorem C6_witness :
    (reference.toDouble (widgetWith "-2.5" "×" "4").lhsInput = some minusTwoAndHalf ∧
      reference.toDouble (widgetWith "-2.5" "×" "4").rhsInput = some four ∧
      ShowsResult reference
        (calculate reference "2024-01-01T00:00:00" (widgetWith "-2.5" "×" "4"))
        (reference.mul minusTwoAndHalf four) ∧
      (calculate reference "2024-01-01T00:00:00" (widgetWith "-2.5" "×" "4")).resultLabel
        = "Result: -10") ∧
    (ReadsRequest reference (Console.start "-2.5 * 4\n") minusTwoAndHalf '*' four
        (cinWith "\n") ∧
      loopBody reference (Console.start "-2.5 * 4\n") = (Control.next,
        { cin := cinWith "\n", cout := prompts ++ ["结果: ", "-10", "\n"] })) ∧
    dispatch reference "*" minusTwoAndHalf four = some reference.zero ∧
    (Reachable reference (widgetWith "-2.5" "×" "4") ∧
      (widgetWith "-2.5" "×" "4").operatorSelector ∈ operatorItems) ∧
    (ReadsLeft reference (Console.start "-2.5 \xc3\x97 4\n") minusTwoAndHalf
        (cinWith " \xc3\x97 4\n") ∧
      loopBody reference (Console.start "-2.5 \xc3\x97 4\n") = (Control.next,
        { cin := cinWith "", cout :=
          ["输入表达式: ", "请输入运算符 (+, -, *, /): ", "无效的运算符。\n"] })) ∧
    switchOp reference '\xc3' minusTwoAndHalf four = Switched.unknown := by
  have hr : ReadsRequest reference (Console.start "-2.5 * 4\n") minusTwoAndHalf '*' four
      (cinWith "\n") :=
    ⟨cinWith " * 4\n", cinWith " 4\n",
      ⟨"-2.5", by decide, by decide, by decide, by decide, by decide, by decide⟩,
      by decide, by decide⟩
  have hl : ReadsLeft reference (Console.start "-2.5 \xc3\x97 4\n") minusTwoAndHalf
      (cinWith " \xc3\x97 4\n") :=
    ⟨"-2.5", by decide, by decide, by decide, by decide, by decide, by decide⟩
  have hw : Reachable reference (widgetWith "-2.5" "×" "4") :=
    Reachable.selected _ "×"
      (Reachable.typedRight _ "4" (Reachable.typedLeft _ "-2.5" Reachable.constructed))
      (by decide)
  refine ⟨⟨by decide, by decide, ?_, by decide⟩, ⟨hr, ?_⟩, ?_, ⟨hw, ?_⟩, ⟨hl, ?_⟩, ?_⟩
  · exact ((C6_one_spelling_per_front_end reference).1 "2024-01-01T00:00:00"
      (widgetWith "-2.5" "×" "4") minusTwoAndHalf four (by decide) (by decide)).1 rfl
  · exact ((C6_one_spelling_per_front_end reference).2.1 (Console.start "-2.5 * 4\n")
      minusTwoAndHalf four (cinWith "\n")).1 hr
  · exact (C6_one_spelling_per_front_end reference).2.2.1 "*" minusTwoAndHalf four
      (by decide) (by decide) (by decide) (by decide)
  · exact (C6_one_spelling_per_front_end reference).2.2.2.1 (widgetWith "-2.5" "×" "4") hw
  · exact (C6_one_spelling_per_front_end reference).2.2.2.2.1
      (Console.start "-2.5 \xc3\x97 4\n") minusTwoAndHalf (cinWith " \xc3\x97 4\n")
      (cinWith "\x97 4\n") '\xc3' hl (by decide) (by decide)
  · exact (C6_one_spelling_per_front_end reference).2.2.2.2.2 '\xc3' minusTwoAndHalf four
      (by decide)

/-- C7, counterexample: a fresh widget, and a widget that has shown a division
by zero for `10 ÷ 0` before its texts were changed; both now hold `3`, `+`,
`4`.  After `calculate` both show `Result: 7` with the error label hidden, but
the text of the error label is empty in the first and still the old message
in the second. -/
theorem C7_counterexample :
    (widgetWith "3" "+" "4").lhsInput =
      ({ calculate reference "2024-01-01T00:00:00" (widgetWith "10" "÷" "0") with
          lhsInput := "3", operatorSelector := "+", rhsInput := "4" }).lhsInput ∧
    (widgetWith "3" "+" "4").operatorSelector =
      ({ calculate reference "2024-01-01T00:00:00" (widgetWith "10" "÷" "0") with
          lhsInput := "3", operatorSelector := "+", rhsInput := "4" }).operatorSelector ∧
    (widgetWith "3" "+" "4").rhsInput =
      ({ calculate reference "2024-01-01T00:00:00" (widgetWith "10" "÷" "0") with
          lhsInput := "3", operatorSelector := "+", rhsInput := "4" }).rhsInput ∧
    (calculate reference "2024-01-01T00:01:00" (widgetWith "3" "+" "4")).errorLabel = "" ∧
    (calculate reference "2024-01-01T00:01:00"
      { calculate reference "2024-01-01T00:00:00" (widgetWith "10" "÷" "0") with
        lhsInput := "3", operatorSelector := "+", rhsInput := "4" }).errorLabel
      = "除数不能为0。" ∧
    (calculate reference "2024-01-01T00:01:00" (widgetWith "3" "+" "4")).errorLabel ≠
      (calculate reference "2024-01-01T00:01:00"
        { calculate reference "2024-01-01T00:00:00" (widgetWith "10" "÷" "0") with
          lhsInput := "3", operatorSelector := "+", rhsInput := "4" }).errorLabel := by
  refine ⟨rfl, rfl, rfl, by decide, by decide, by decide⟩

/-- C7, amended: for any two prior states of the widget (any previous labels,
visibility and log, and any two times of the call) with the same left text,
operator text and right text, `calculate` leaves the same result label text
and the same visibility of the error label in both runs, and the same error
label text whenever the error label is visible; a run that succeeds leaves
the error label text as it was before the call.  Hence calling it twice in a
row on the same inputs leaves the three of them as the first call did. -/
theorem C7_labels_depend_on_inputs_only {D : Type} (L : Lib D) :
    (∀ (now1 now2 : String) (w1 w2 : CalculatorWidget),
      w1.lhsInput = w2.lhsInput → w1.operatorSelector = w2.operatorSelector →
      w1.rhsInput = w2.rhsInput →
      (calculate L now1 w1).resultLabel = (calculate L now2 w2).resultLabel ∧
      (calculate L now1 w1).errorVisible = (calculate L now2 w2).errorVisible ∧
      ((calculate L now1 w1).errorVisible = true →
        (calculate L now1 w1).errorLabel = (calculate L now2 w2).errorLabel) ∧
      ((calculate L now1 w1).errorVisible = false →
        (calculate L now1 w1).errorLabel = w1.errorLabel)) ∧
    (∀ (now1 now2 : String) (w : CalculatorWidget),
      (calculate L now2 (calculate L now1 w)).resultLabel = (calculate L now1 w).resultLabel ∧
      (calculate L now2 (calculate L now1 w)).errorVisible = (calculate L now1 w).errorVisible ∧
      (calculate L now2 (calculate L now1 w)).errorLabel = (calculate L now1 w).errorLabel) := by
  refine ⟨fun now1 now2 w1 w2 hl ho hr => calculate_same_inputs L now1 now2 w1 w2 hl ho hr,
    fun now1 now2 w => ?_⟩
  obtain ⟨il, io, ir⟩ := calculate_inputs L now1 w
  obtain ⟨h1, h2, h3, h4⟩ :=
    calculate_same_inputs L now2 now1 (calculate L now1 w) w il io ir
  refine ⟨h1, h2, ?_⟩
  cases hv : (calculate L now2 (calculate L now1 w)).errorVisible with
  | true => exact h3 hv
  | false => exact h4 hv

/-- C7, witness: two widgets with the texts `10`, `÷`, `0`, one fresh and one
with other labels and a log from an earlier call, end with the same result
label, the same visible error label and the same error text. -/
theorem C7_witness :
    (calculate reference "2024-01-01T00:00:00" (widgetWith "10" "÷" "0")).resultLabel =
      (calculate reference "2025-06-30T12:00:00"
        { widgetWith "10" "÷" "0" with
          resultLabel := "Result: 7", errorLabel := "请输入有效的数字。", errorVisible := true,
          logView := ["2024-01-01T00:00:00 | 3 + 4 = 7"] }).resultLabel ∧
    (calculate reference "2024-01-01T00:00:00" (widgetWith "10" "÷" "0")).errorVisible =
      (calculate reference "2025-06-30T12:00:00"
        { widgetWith "10" "÷" "0" with
          resultLabel := "Result: 7", errorLabel := "请输入有效的数字。", errorVisible := true,
          logView := ["2024-01-01T00:00:00 | 3 + 4 = 7"] }).errorVisible ∧
    (calculate reference "2024-01-01T00:00:00" (widgetWith "10" "÷" "0")).errorVisible = true ∧
    (calculate reference "2024-01-01T00:00:00" (widgetWith "10" "÷" "0")).errorLabel =
      (calculate reference "2025-06-30T12:00:00"
        { widgetWith "10" "÷" "0" with
          resultLabel := "Result: 7", errorLabel := "请输入有效的数字。", errorVisible := true,
          logView := ["2024-01-01T00:00:00 | 3 + 4 = 7"] }).errorLabel :=
  have h := (C7_labels_depend_on_inputs_only reference).1 "2024-01-01T00:00:00"
    "2025-06-30T12:00:00" (widgetWith "10" "÷" "0")
    { widgetWith "10" "÷" "0" with
      resultLabel := "Result: 7", errorLabel := "请输入有效的数字。", errorVisible := true,
      logView := ["2024-01-01T00:00:00 | 3 + 4 = 7"] } rfl rfl rfl
  ⟨h.1, h.2.1, by decide, h.2.2.1 (by decide)⟩

/-- C8: on the evaluation step the two front ends agree.  For all operands
`a` and `b` and each of the four operators, the operator chain of `calculate`
(texts `+`, `-`, `×`, `÷`) and the `switch` of `main` (characters `+`, `-`,
`*`, `/`) either both report the division by zero or both leave the same
value. -/
theorem C8_front_ends_agree {D : Type} (L : Lib D) (a b : D) :
    ∀ sym ∈ [("+", '+'), ("-", '-'), ("×", '*'), ("÷", '/')],
      (dispatch L sym.1 a b = none ∧ switchOp L sym.2 a b = Switched.divisionByZero) ∨
      (∃ v, dispatch L sym.1 a b = some v ∧ switchOp L sym.2 a b = Switched.result v) := by
  intro sym hmem
  simp only [List.mem_cons, List.mem_singleton, List.not_mem_nil, or_false] at hmem
  rcases hmem with h | h | h | h <;> subst h
  · exact Or.inr ⟨L.add a b, rfl, rfl⟩
  · exact Or.inr ⟨L.sub a b, rfl, rfl⟩
  · exact Or.inr ⟨L.mul a b, rfl, rfl⟩
  · cases hz : L.eq b L.zero with
    | true => exact Or.inl ⟨by simp [dispatch, hz], by simp [switchOp, hz]⟩
    | false => exact Or.inr ⟨L.div a b, by simp [dispatch, hz], by simp [switchOp, hz]⟩

/-- C8, witness: for `10` and `0` with Divide both front ends report the
division by zero. -/
theorem C8_witness :
    dispatch reference "÷" ten Binary64.zero = none ∧
    switchOp reference '/' ten Binary64.zero = Switched.divisionByZero := by
  rcases C8_front_ends_agree reference ten Binary64.zero ("÷", '/') (by decide) with
    h | ⟨v, h1, _⟩
  · exact h
  · have hn : dispatch reference "÷" ten Binary64.zero = none := by decide
    exact absurd (hn.symm.trans h1) (by simp)

/-- C9: in the loop of `main` no failure of a request ends the session.  An
iteration whose first token is read and is neither `q` nor `Q` continues with
the next iteration, whatever the rest of the input is (an invalid left
operand, an invalid operator, an invalid right operand, a division by zero or
a result).  An iteration leaves `main` only with `EXIT_SUCCESS` on the first
token `q` or `Q`, or with `EXIT_FAILURE` when the first token cannot be read;
and when the loop ends, it ends in such an iteration. -/
theorem C9_failures_continue_the_loop {D : Type} (L : Lib D) :
    (∀ (k : Console) (firstToken : String) (s1 : Cin),
      extractString k.cin = (some firstToken, s1) → firstToken ≠ "q" → firstToken ≠ "Q" →
      (loopBody L k).1 = Control.next ∧
      ∀ fuel, mainLoop L (fuel + 1) k = mainLoop L fuel (loopBody L k).2) ∧
    (∀ (k : Console) (firstToken : String) (s1 : Cin),
      extractString k.cin = (some firstToken, s1) → (firstToken = "q" ∨ firstToken = "Q") →
      (loopBody L k).1 = Control.exit EXIT_SUCCESS) ∧
    (∀ (k : Console) (s1 : Cin), extractString k.cin = (none, s1) →
      (loopBody L k).1 = Control.exit EXIT_FAILURE) ∧
    (∀ (fuel : Nat) (k : Console) (status : Nat) (k1 : Console),
      mainLoop L fuel k = some (status, k1) →
      ∃ k0, loopBody L k0 = (Control.exit status, k1) ∧
        ((status = EXIT_SUCCESS ∧ ∃ s1, extractString k0.cin = (some "q", s1) ∨
            extractString k0.cin = (some "Q", s1)) ∨
          (status = EXIT_FAILURE ∧ ∃ s1, extractString k0.cin = (none, s1)))) := by
  refine ⟨fun k firstToken s1 h hq hQ => ?_, fun k firstToken s1 h hq => ?_,
    fun k s1 h => ?_, fun fuel k status k1 h => ?_⟩
  · have hc := loopBody_continues L k firstToken s1 h hq hQ
    refine ⟨hc, fun fuel => ?_⟩
    rcases hb : loopBody L k with ⟨c, k2⟩
    rw [hb] at hc
    simp only at hc
    subst hc
    rw [mainLoop, hb]
  · rw [loopBody_quit L k firstToken s1 h hq]
  · rw [loopBody_unreadable L k s1 h]
  · obtain ⟨k0, h0⟩ := mainLoop_last_iteration L fuel k status k1 h
    exact ⟨k0, h0, loopBody_exit_cases L k0 status (by rw [h0])⟩

/-- C9, witness: on the input of four failing requests followed by `q`, each
of the four iterations continues, and `main` ends with `EXIT_SUCCESS` at the
token `q`. -/
theorem C9_witness :
    (extractString (Console.start "x + 1\n3 % 1\n3 + y\n3 / 0\nq\n").cin
        = (some "x", cinWith " + 1\n3 % 1\n3 + y\n3 / 0\nq\n") ∧
      (loopBody reference (Console.start "x + 1\n3 % 1\n3 + y\n3 / 0\nq\n")).1
        = Control.next) ∧
    (extractString (cinWith "3 / 0\nq\n") = (some "3", cinWith " / 0\nq\n") ∧
      (loopBody reference { cin := cinWith "3 / 0\nq\n", cout := [] }).1 = Control.next) ∧
    (extractString (cinWith "\nq\n") = (some "q", cinWith "\n") ∧
      (loopBody reference { cin := cinWith "\nq\n", cout := [] }).1
        = Control.exit EXIT_SUCCESS) ∧
    (main reference 5 "x + 1\n3 % 1\n3 + y\n3 / 0\nq\n").map Prod.fst = some EXIT_SUCCESS ∧
    main reference 4 "x + 1\n3 % 1\n3 + y\n3 / 0\nq\n" = none :=
  ⟨⟨by decide, ((C9_failures_continue_the_loop reference).1
      (Console.start "x + 1\n3 % 1\n3 + y\n3 / 0\nq\n") "x"
      (cinWith " + 1\n3 % 1\n3 + y\n3 / 0\nq\n") (by decide) (by decide) (by decide)).1⟩,
    ⟨by decide, ((C9_failures_continue_the_loop reference).1
      { cin := cinWith "3 / 0\nq\n", cout := [] } "3" (cinWith " / 0\nq\n")
      (by decide) (by decide) (by decide)).1⟩,
    ⟨by decide, (C9_failures_continue_the_loop reference).2.1
      { cin := cinWith "\nq\n", cout := [] } "q" (cinWith "\n") (by decide) (Or.inl rfl)⟩,
    by decide, by decide⟩

/-- C10: after every call of `calculate`, from any prior state of the widget
and for any inputs, exactly one of the two outcomes is shown: either the error
label is visible with one of the two error messages and the result label
reads `Result: --`, or the error label is hidden and the result label shows
the value the operator chain left. -/
theorem C10_exactly_one_outcome_shown {D : Type} (L : Lib D) (now : String)
    (w : CalculatorWidget) :
    Xor'
      (∃ message, (message = "请输入有效的数字。" ∨ message = "除数不能为0。") ∧
        ShowsError (calculate L now w) message)
      (∃ a b v, L.toDouble w.lhsInput = some a ∧ L.toDouble w.rhsInput = some b ∧
        dispatch L w.operatorSelector a b = some v ∧ ShowsResult L (calculate L now w) v) := by
  rcases calculate_labels L now w with ⟨_, e⟩ | ⟨a, b, _, _, _, e⟩ | ⟨a, b, v, ha, hb, hv, r, _⟩
  · refine Or.inl ⟨⟨_, Or.inl rfl, e⟩, fun ⟨_, _, _, _, _, _, r⟩ => ?_⟩
    have h1 : (calculate L now w).errorVisible = true := e.1
    have h2 : (calculate L now w).errorVisible = false := r.1
    rw [h1] at h2
    cases h2
  · refine Or.inl ⟨⟨_, Or.inr rfl, e⟩, fun ⟨_, _, _, _, _, _, r⟩ => ?_⟩
    have h1 : (calculate L now w).errorVisible = true := e.1
    have h2 : (calculate L now w).errorVisible = false := r.1
    rw [h1] at h2
    cases h2
  · refine Or.inr ⟨⟨a, b, v, ha, hb, hv, r⟩, fun ⟨_, _, e⟩ => ?_⟩
    have h1 : (calculate L now w).errorVisible = true := e.1
    have h2 : (calculate L now w).errorVisible = false := r.1
    rw [h1] at h2
    cases h2

end Calculator
